import Mathlib

/-!
# Workspace teardown (`pkg/server/workspaces/remove.go`)

A shallow embedding of `WorkspaceService.RemoveWorkspace`,
`WorkspaceService.ForceRemoveWorkspace` and `WorkspaceService.handleRemoveError`.

The service talks to seven collaborators through Go interfaces.  Each interface
method is embedded as a state transformer on an arbitrary world type `σ`
(`σ → result × σ`), so a collaborator may behave in any way at all, and every
call together with what it returned is appended to a call log.  A Go `error` is
`Option GoError` (`none` is `nil`), a Go pointer result is an `Option` of the
record it points to, and dereferencing a `nil` pointer ends the run with
`Outcome.nilDereference`.
-/

namespace Daytona

/-! ## Data model -/

/-- A non-nil Go `error` value; `Error()` yields its message. -/
structure GoError where
  message : String
deriving DecidableEq, Repr

/-- The method `Error()` of a Go error value. -/
def GoError.Error (e : GoError) : String := e.message

/-- Go's `error` interface type: `none` is `nil`. -/
abbrev error : Type := Option GoError

/-- The fields of `workspace.Workspace` that the teardown flow reads. -/
structure Workspace where
  Id : String
  Name : String
  TargetId : String
deriving DecidableEq, Repr

/-- The fields of `target.Target` that the teardown flow reads. -/
structure Target where
  Id : String
  Name : String
  TargetConfig : String
deriving DecidableEq, Repr

/-- A `provider.TargetConfig`: a named configuration naming its provider. -/
structure TargetConfig where
  Name : String
  ProviderName : String
deriving DecidableEq, Repr

/-- The filter `provider.TargetConfigFilter`; `Name` is a `*string`. -/
structure TargetConfigFilter where
  Name : Option String
deriving DecidableEq, Repr

/-- Log source tags of package `logs`; the teardown flow uses `LogSourceServer`. -/
inductive LogSource where
  | LogSourceServer
  | other (tag : String)
deriving DecidableEq, Repr

/-- The two server events that `handleRemoveError` can report. -/
inductive ServerEvent where
  | ServerEventWorkspaceDestroyed
  | ServerEventWorkspaceDestroyError
deriving DecidableEq, Repr

/-- Telemetry properties, a Go `map[string]interface{}` holding strings. -/
abbrev Props : Type := List (String × String)

/-- The map assignment `props[key] = value`. -/
def setProp (props : Props) (key value : String) : Props :=
  props.filter (fun kv => kv.1 != key) ++ [(key, value)]

/-- A `context.Context`, seen as the values it carries. -/
structure Context where
  values : List (String × String)
deriving DecidableEq, Repr

/-- Modelled from the spec: the package-level sentinel `ErrWorkspaceNotFound` of
package `workspaces` is declared outside the available sources; the design names
it the fatal `WorkspaceNotFound` condition. -/
def ErrWorkspaceNotFound : GoError := ⟨"workspace not found"⟩

/-! ## Collaborator interfaces -/

/-- The interface `WorkspaceStore`: `Find(idOrName)` and `Delete(ws)`. -/
structure WorkspaceStore (σ : Type) where
  Find : String → σ → (Option Workspace × error) × σ
  Delete : Workspace → σ → error × σ

/-- The interface `TargetStore`: `Find(id)`. -/
structure TargetStore (σ : Type) where
  Find : String → σ → (Option Target × error) × σ

/-- The interface `TargetConfigStore`: `Find(filter)`. -/
structure TargetConfigStore (σ : Type) where
  Find : TargetConfigFilter → σ → (Option TargetConfig × error) × σ

/-- The method of `provisioner.IProvisioner` that the teardown flow calls; the
other nine lifecycle methods of the interface are never reached from it. -/
structure IProvisioner (σ : Type) where
  DestroyWorkspace : Workspace → Option TargetConfig → σ → error × σ

/-- The API key service: `Revoke(name)`. -/
structure ApiKeyService (σ : Type) where
  Revoke : String → σ → error × σ

/-- A workspace logger as returned by the logger factory: `Cleanup()`. -/
structure Logger (σ : Type) where
  Cleanup : σ → error × σ

/-- The logger factory: `CreateWorkspaceLogger(id, name, source)`. -/
structure LoggerFactory (σ : Type) where
  CreateWorkspaceLogger : String → String → LogSource → σ → Logger σ × σ

/-- The telemetry service: `TrackServerEvent(event, clientId, props)`. -/
structure TelemetryService (σ : Type) where
  TrackServerEvent : ServerEvent → String → Props → σ → error × σ

/-- The functions of package `telemetry` that read the context. -/
structure TelemetryPackage where
  TelemetryEnabled : Context → Bool
  ClientId : Context → String
  NewWorkspaceEventProps : Context → Option Workspace → Props

/-- The receiver `*WorkspaceService` with the collaborators it holds. -/
structure WorkspaceService (σ : Type) where
  workspaceStore : WorkspaceStore σ
  targetStore : TargetStore σ
  targetConfigStore : TargetConfigStore σ
  provisioner : IProvisioner σ
  apiKeyService : ApiKeyService σ
  loggerFactory : LoggerFactory σ
  telemetryService : TelemetryService σ
  telemetry : TelemetryPackage

/-! ## Call log -/

/-- One entry of the call log: a collaborator call with its arguments and what
it returned, or a call to the process-wide logger. -/
inductive Call where
  | workspaceStoreFind (idOrName : String) (ws : Option Workspace) (err : error)
  | targetStoreFind (id : String) (target : Option Target) (err : error)
  | targetConfigStoreFind (filter : TargetConfigFilter) (targetConfig : Option TargetConfig)
      (err : error)
  | DestroyWorkspace (ws : Workspace) (targetConfig : Option TargetConfig) (err : error)
  | Revoke (name : String) (err : error)
  | CreateWorkspaceLogger (id name : String) (source : LogSource)
  | Cleanup (err : error)
  | workspaceStoreDelete (ws : Workspace) (err : error)
  | TrackServerEvent (event : ServerEvent) (clientId : String) (props : Props) (err : error)
  | logInfof (text : String)
  | logError (err : GoError)
  | logTrace (err : error)
deriving DecidableEq, Repr

/-- Is the entry a call to `provisioner.DestroyWorkspace`? -/
def Call.isDestroyWorkspace : Call → Bool
  | .DestroyWorkspace _ _ _ => true
  | _ => false

/-- Is the entry a call to `provisioner.DestroyWorkspace` that returned an error? -/
def Call.isFailedDestroy : Call → Bool
  | .DestroyWorkspace _ _ (some _) => true
  | _ => false

/-- Is the entry a call to `apiKeyService.Revoke`? -/
def Call.isRevoke : Call → Bool
  | .Revoke _ _ => true
  | _ => false

/-- Is the entry a call to `loggerFactory.CreateWorkspaceLogger`? -/
def Call.isCreateWorkspaceLogger : Call → Bool
  | .CreateWorkspaceLogger _ _ _ => true
  | _ => false

/-- Is the entry a call to the workspace logger's `Cleanup`? -/
def Call.isCleanup : Call → Bool
  | .Cleanup _ => true
  | _ => false

/-- Is the entry a call to `workspaceStore.Delete`? -/
def Call.isDelete : Call → Bool
  | .workspaceStoreDelete _ _ => true
  | _ => false

/-- Is the entry a call to `telemetryService.TrackServerEvent`? -/
def Call.isTrackServerEvent : Call → Bool
  | .TrackServerEvent _ _ _ _ => true
  | _ => false

/-- Is the entry a call to the process-wide logger (`log.Infof`, `log.Error`,
`log.Trace`) rather than to a collaborator of the service? -/
def Call.isLog : Call → Bool
  | .logInfof _ => true
  | .logError _ => true
  | .logTrace _ => true
  | _ => false

/-- How many entries of a call log satisfy `p`. -/
def calls (p : Call → Bool) (trace : List Call) : Nat := trace.countP p

/-- The call log without the entries of the process-wide logger. -/
def collaboratorCalls (trace : List Call) : List Call :=
  trace.filter (fun c => !c.isLog)

/-! ## Runs -/

/-- How a call of the service ends: it returns an `error`, or it dereferences a
`nil` record that a store handed back together with a `nil` error. -/
inductive Outcome where
  | returned (err : error)
  | nilDereference
deriving DecidableEq, Repr

/-- A finished run: how it ended, the world it left, and the calls it made. -/
structure Result (σ : Type) where
  outcome : Outcome
  world : σ
  trace : List Call

/-- The statement `if err != nil { log.Error(err) }`. -/
def logIfError (err : error) (trace : List Call) : List Call :=
  match err with
  | some e => trace ++ [Call.logError e]
  | none => trace

/-! ## The three functions of `remove.go` -/

/-- The method `handleRemoveError(ctx, w, err)`, run from `world` with the call
log `trace` made so far. -/
def handleRemoveError {σ : Type} (s : WorkspaceService σ) (ctx : Context)
    (w : Option Workspace) (err : error) (world : σ) (trace : List Call) : Result σ :=
  if !s.telemetry.TelemetryEnabled ctx then
    ⟨Outcome.returned err, world, trace⟩
  else
    let clientId := s.telemetry.ClientId ctx
    let telemetryProps := s.telemetry.NewWorkspaceEventProps ctx w
    let event := ServerEvent.ServerEventWorkspaceDestroyed
    let (telemetryProps, event) :=
      match err with
      | some e => (setProp telemetryProps "error" e.Error,
                    ServerEvent.ServerEventWorkspaceDestroyError)
      | none => (telemetryProps, event)
    let (telemetryError, world) :=
      s.telemetryService.TrackServerEvent event clientId telemetryProps world
    let trace := trace ++ [Call.TrackServerEvent event clientId telemetryProps telemetryError]
    let trace :=
      match telemetryError with
      | some _ => trace ++ [Call.logTrace err]
      | none => trace
    ⟨Outcome.returned err, world, trace⟩

/-- The method `RemoveWorkspace(ctx, workspaceId)`, run from `world`. -/
def RemoveWorkspace {σ : Type} (s : WorkspaceService σ) (ctx : Context)
    (workspaceId : String) (world : σ) : Result σ :=
  match s.workspaceStore.Find workspaceId world with
  | ((ws, some err), world) =>
    handleRemoveError s ctx ws (some ErrWorkspaceNotFound) world
      [Call.workspaceStoreFind workspaceId ws (some err)]
  | ((none, none), world) =>
    ⟨Outcome.nilDereference, world, [Call.workspaceStoreFind workspaceId none none]⟩
  | ((some ws, none), world) =>
    let trace := [Call.workspaceStoreFind workspaceId (some ws) none,
                  Call.logInfof ("Destroying workspace " ++ ws.Name)]
    match s.targetStore.Find ws.TargetId world with
    | ((target, some err), world) =>
      handleRemoveError s ctx (some ws) (some err) world
        (trace ++ [Call.targetStoreFind ws.TargetId target (some err)])
    | ((none, none), world) =>
      ⟨Outcome.nilDereference, world, trace ++ [Call.targetStoreFind ws.TargetId none none]⟩
    | ((some target, none), world) =>
      let trace := trace ++ [Call.targetStoreFind ws.TargetId (some target) none]
      let filter : TargetConfigFilter := ⟨some target.TargetConfig⟩
      match s.targetConfigStore.Find filter world with
      | ((targetConfig, some err), world) =>
        handleRemoveError s ctx (some ws) (some err) world
          (trace ++ [Call.targetConfigStoreFind filter targetConfig (some err)])
      | ((targetConfig, none), world) =>
        let trace := trace ++ [Call.targetConfigStoreFind filter targetConfig none]
        match s.provisioner.DestroyWorkspace ws targetConfig world with
        | (some err, world) =>
          handleRemoveError s ctx (some ws) (some err) world
            (trace ++ [Call.DestroyWorkspace ws targetConfig (some err)])
        | (none, world) =>
          let trace := trace ++ [Call.DestroyWorkspace ws targetConfig none]
          let (err, world) := s.apiKeyService.Revoke ("ws-" ++ ws.Id) world
          let trace := logIfError err (trace ++ [Call.Revoke ("ws-" ++ ws.Id) err])
          let (workspaceLogger, world) :=
            s.loggerFactory.CreateWorkspaceLogger ws.Id ws.Name LogSource.LogSourceServer world
          let trace :=
            trace ++ [Call.CreateWorkspaceLogger ws.Id ws.Name LogSource.LogSourceServer]
          let (err, world) := workspaceLogger.Cleanup world
          let trace := logIfError err (trace ++ [Call.Cleanup err])
          let (err, world) := s.workspaceStore.Delete ws world
          let trace := trace ++ [Call.workspaceStoreDelete ws err]
          handleRemoveError s ctx (some ws) err world trace

/-- The method `ForceRemoveWorkspace(ctx, workspaceId)`, run from `world`:
it ignores provider errors and goes on to remove the workspace from storage. -/
def ForceRemoveWorkspace {σ : Type} (s : WorkspaceService σ) (ctx : Context)
    (workspaceId : String) (world : σ) : Result σ :=
  match s.workspaceStore.Find workspaceId world with
  | ((ws, some err), world) =>
    handleRemoveError s ctx ws (some ErrWorkspaceNotFound) world
      [Call.workspaceStoreFind workspaceId ws (some err)]
  | ((none, none), world) =>
    ⟨Outcome.nilDereference, world, [Call.workspaceStoreFind workspaceId none none]⟩
  | ((some ws, none), world) =>
    let trace := [Call.workspaceStoreFind workspaceId (some ws) none,
                  Call.logInfof ("Destroying workspace " ++ ws.Name)]
    match s.targetStore.Find ws.TargetId world with
    | ((target, some err), world) =>
      handleRemoveError s ctx (some ws) (some err) world
        (trace ++ [Call.targetStoreFind ws.TargetId target (some err)])
    | ((none, none), world) =>
      ⟨Outcome.nilDereference, world, trace ++ [Call.targetStoreFind ws.TargetId none none]⟩
    | ((some target, none), world) =>
      let trace := trace ++ [Call.targetStoreFind ws.TargetId (some target) none]
      let filter : TargetConfigFilter := ⟨some target.TargetConfig⟩
      match s.targetConfigStore.Find filter world with
      | ((targetConfig, some err), world) =>
        handleRemoveError s ctx (some ws) (some err) world
          (trace ++ [Call.targetConfigStoreFind filter targetConfig (some err)])
      | ((targetConfig, none), world) =>
        let trace := trace ++ [Call.targetConfigStoreFind filter targetConfig none]
        let (err, world) := s.provisioner.DestroyWorkspace ws targetConfig world
        let trace := logIfError err (trace ++ [Call.DestroyWorkspace ws targetConfig err])
        let (err, world) := s.apiKeyService.Revoke ("ws-" ++ ws.Id) world
        let trace := logIfError err (trace ++ [Call.Revoke ("ws-" ++ ws.Id) err])
        let (workspaceLogger, world) :=
          s.loggerFactory.CreateWorkspaceLogger ws.Id ws.Name LogSource.LogSourceServer world
        let trace :=
          trace ++ [Call.CreateWorkspaceLogger ws.Id ws.Name LogSource.LogSourceServer]
        let (err, world) := workspaceLogger.Cleanup world
        let trace := logIfError err (trace ++ [Call.Cleanup err])
        let (err, world) := s.workspaceStore.Delete ws world
        let trace := trace ++ [Call.workspaceStoreDelete ws err]
        handleRemoveError s ctx (some ws) err world trace

/-! ## An in-memory environment

Concrete collaborators on which the functions above can be evaluated: stores
that are lists of records, and collaborators whose failures are fixed in
advance by a `Faults` record. -/

/-- The world of the in-memory environment. -/
structure MemWorld where
  workspaces : List Workspace
  targets : List Target
  targetConfigs : List TargetConfig
  destroyed : List String
  revoked : List String
  cleaned : List String
  tracked : Nat
  locked : Bool
deriving DecidableEq, Repr

/-- The error each in-memory collaborator returns (`none`: it succeeds). -/
structure Faults where
  destroy : error
  revoke : error
  cleanup : error
  track : error
deriving DecidableEq, Repr

/-- No collaborator fails. -/
def noFaults : Faults := ⟨none, none, none, none⟩

/-- The error of an in-memory store that has no record under the key. -/
def errRecordNotFound : GoError := ⟨"record not found"⟩

/-- The error of an in-memory store that is locked against writes. -/
def errStoreLocked : GoError := ⟨"database is locked"⟩

/-- An in-memory workspace store: `Find` looks the id up in the list and fails
exactly when no record has it; `Delete` fails while the world is locked against
writes and otherwise removes the record. -/
def memWorkspaceStore : WorkspaceStore MemWorld where
  Find := fun id w =>
    match w.workspaces.find? (fun ws => ws.Id == id) with
    | some ws => ((some ws, none), w)
    | none => ((none, some errRecordNotFound), w)
  Delete := fun ws w =>
    if w.locked then (some errStoreLocked, w)
    else (none, { w with workspaces := w.workspaces.filter (fun x => x.Id != ws.Id) })

/-- An in-memory target store. -/
def memTargetStore : TargetStore MemWorld where
  Find := fun id w =>
    match w.targets.find? (fun t => t.Id == id) with
    | some t => ((some t, none), w)
    | none => ((none, some errRecordNotFound), w)

/-- An in-memory target config store, looked up by the filter's name. -/
def memTargetConfigStore : TargetConfigStore MemWorld where
  Find := fun filter w =>
    match w.targetConfigs.find? (fun c => some c.Name == filter.Name) with
    | some c => ((some c, none), w)
    | none => ((none, some errRecordNotFound), w)

/-- An in-memory provisioner: records the destroyed workspace unless it fails. -/
def memProvisioner (f : Faults) : IProvisioner MemWorld where
  DestroyWorkspace := fun ws _ w =>
    match f.destroy with
    | some e => (some e, w)
    | none => (none, { w with destroyed := w.destroyed ++ [ws.Id] })

/-- An in-memory API key service: records the revoked key unless it fails. -/
def memApiKeyService (f : Faults) : ApiKeyService MemWorld where
  Revoke := fun name w =>
    match f.revoke with
    | some e => (some e, w)
    | none => (none, { w with revoked := w.revoked ++ [name] })

/-- An in-memory logger factory: the logger cleans the log of its workspace. -/
def memLoggerFactory (f : Faults) : LoggerFactory MemWorld where
  CreateWorkspaceLogger := fun id _ _ w =>
    (⟨fun w =>
        match f.cleanup with
        | some e => (some e, w)
        | none => (none, { w with cleaned := w.cleaned ++ [id] })⟩, w)

/-- An in-memory telemetry service: counts the events it is handed. -/
def memTelemetryService (f : Faults) : TelemetryService MemWorld where
  TrackServerEvent := fun _ _ _ w => (f.track, { w with tracked := w.tracked + 1 })

/-- A telemetry package that reads its settings from the context values. -/
def memTelemetry : TelemetryPackage where
  TelemetryEnabled := fun ctx => ctx.values.contains ("telemetry", "enabled")
  ClientId := fun ctx => ((ctx.values.find? (fun kv => kv.1 == "client")).map Prod.snd).getD ""
  NewWorkspaceEventProps := fun _ w =>
    match w with
    | some ws => [("workspace_id", ws.Id)]
    | none => []

/-- The in-memory service with the given faults. -/
def memService (f : Faults) : WorkspaceService MemWorld where
  workspaceStore := memWorkspaceStore
  targetStore := memTargetStore
  targetConfigStore := memTargetConfigStore
  provisioner := memProvisioner f
  apiKeyService := memApiKeyService f
  loggerFactory := memLoggerFactory f
  telemetryService := memTelemetryService f
  telemetry := memTelemetry

/-- The workspace `w1` on target `t1`. -/
def workspaceW1 : Workspace := ⟨"w1", "dev", "t1"⟩

/-- The target `t1` with target config `local`. -/
def targetT1 : Target := ⟨"t1", "box", "local"⟩

/-- The target config `local`. -/
def localConfig : TargetConfig := ⟨"local", "docker"⟩

/-- The world in which `w1`, `t1` and `local` exist. -/
def world1 : MemWorld := ⟨[workspaceW1], [targetT1], [localConfig], [], [], [], 0, false⟩

/-- The same world with the store locked against writes. -/
def lockedWorld1 : MemWorld := { world1 with locked := true }

/-- The world in which `w1` exists but its target names an unknown config. -/
def worldUnknownConfig : MemWorld := { world1 with targetConfigs := [] }

/-- The error of an unreachable provider. -/
def ErrProviderUnreachable : GoError := ⟨"provider unreachable"⟩

/-- The provider is unreachable; every other collaborator succeeds. -/
def providerDown : Faults := { noFaults with destroy := some ErrProviderUnreachable }

/-- `Revoke`, `Cleanup` and the telemetry service fail; the provider succeeds. -/
def auxiliaryDown : Faults :=
  ⟨none, some ⟨"revoke failed"⟩, some ⟨"cleanup failed"⟩, some ⟨"telemetry failed"⟩⟩

/-- A context with telemetry enabled. -/
def ctxOn : Context := ⟨[("telemetry", "enabled"), ("client", "c1")]⟩

/-- A context with telemetry disabled. -/
def ctxOff : Context := ⟨[]⟩

/-! ## What is assumed of a store

The persistence behind `WorkspaceStore` is not part of the service.  Where a
statement speaks of the stored records, it does so through a reading `records`
of the world, about which the two assumptions below can be made. -/

/-- No collaborator call other than `workspaceStore.Delete` changes `view`. -/
structure OnlyDeleteChanges {σ α : Type} (s : WorkspaceService σ) (view : σ → α) : Prop where
  workspaceFind : ∀ id w, view (s.workspaceStore.Find id w).2 = view w
  targetFind : ∀ id w, view (s.targetStore.Find id w).2 = view w
  targetConfigFind : ∀ filter w, view (s.targetConfigStore.Find filter w).2 = view w
  destroyWorkspace : ∀ ws tc w, view (s.provisioner.DestroyWorkspace ws tc w).2 = view w
  revoke : ∀ name w, view (s.apiKeyService.Revoke name w).2 = view w
  createWorkspaceLogger : ∀ id name source w,
    view (s.loggerFactory.CreateWorkspaceLogger id name source w).2 = view w
  cleanup : ∀ id name source w w0,
    view ((s.loggerFactory.CreateWorkspaceLogger id name source w0).1.Cleanup w).2 = view w
  trackServerEvent : ∀ event clientId props w,
    view (s.telemetryService.TrackServerEvent event clientId props w).2 = view w

/-- The workspace store behaves as a table read by `records`: `Find` succeeds
exactly for the keys that have a record, and a successful `Delete` removes the
record from every key that held it. -/
structure IsWorkspaceTable {σ : Type} (s : WorkspaceService σ)
    (records : σ → String → Option Workspace) : Prop where
  find_present : ∀ id w ws, records w id = some ws →
    (s.workspaceStore.Find id w).1 = (some ws, none)
  find_absent : ∀ id w, records w id = none → (s.workspaceStore.Find id w).1.2 ≠ none
  delete_removes : ∀ ws w, (s.workspaceStore.Delete ws w).1 = none →
    ∀ id, records w id = some ws → records (s.workspaceStore.Delete ws w).2 id = none

/-- The reading of the in-memory world as a table of workspaces keyed by id. -/
def memRecords (w : MemWorld) (id : String) : Option Workspace :=
  w.workspaces.find? (fun ws => ws.Id == id)

/-- The call log of three successful lookups: what both flows have logged when
they reach the provisioner. -/
def lookupCalls (workspaceId : String) (W : Workspace) (target : Target)
    (targetConfig : Option TargetConfig) : List Call :=
  [Call.workspaceStoreFind workspaceId (some W) none,
   Call.logInfof ("Destroying workspace " ++ W.Name),
   Call.targetStoreFind W.TargetId (some target) none,
   Call.targetConfigStoreFind ⟨some target.TargetConfig⟩ targetConfig none]

/-- The call log of steps 4 to 7 for workspace `W`, given what the provisioner,
`Revoke`, `Cleanup` and `Delete` returned. -/
def teardownCalls (W : Workspace) (targetConfig : Option TargetConfig)
    (perr rerr cerr derr : error) : List Call :=
  logIfError perr [Call.DestroyWorkspace W targetConfig perr]
    ++ logIfError rerr [Call.Revoke ("ws-" ++ W.Id) rerr]
    ++ [Call.CreateWorkspaceLogger W.Id W.Name LogSource.LogSourceServer]
    ++ logIfError cerr [Call.Cleanup cerr]
    ++ [Call.workspaceStoreDelete W derr]

/-- The event `handleRemoveError` reports for `err`: the destroy-error event for an
error, the destroyed event otherwise. -/
def reportEvent (err : error) : ServerEvent :=
  match err with
  | some _ => ServerEvent.ServerEventWorkspaceDestroyError
  | none => ServerEvent.ServerEventWorkspaceDestroyed

/-- The properties `handleRemoveError` reports for workspace `w` and `err`: the
workspace event properties, with the error message under `"error"` for an error. -/
def reportProps {σ : Type} (s : WorkspaceService σ) (ctx : Context) (w : Option Workspace)
    (err : error) : Props :=
  match err with
  | some e => setProp (s.telemetry.NewWorkspaceEventProps ctx w) "error" e.Error
  | none => s.telemetry.NewWorkspaceEventProps ctx w

/-! ## Facts about `handleRemoveError` -/

section Lemmas

variable {σ : Type}

theorem handleRemoveError_outcome (s : WorkspaceService σ) (ctx : Context)
    (w : Option Workspace) (err : error) (world : σ) (trace : List Call) :
    (handleRemoveError s ctx w err world trace).outcome = Outcome.returned err := by
  unfold handleRemoveError
  split <;> rfl

theorem handleRemoveError_trace (s : WorkspaceService σ) (ctx : Context)
    (w : Option Workspace) (err : error) (world : σ) (trace : List Call) :
    (handleRemoveError s ctx w err world trace).trace
      = trace ++ (handleRemoveError s ctx w err world []).trace := by
  unfold handleRemoveError
  split
  · simp
  · cases err <;> simp <;> split <;> simp

theorem handleRemoveError_calls_track (s : WorkspaceService σ) (ctx : Context)
    (w : Option Workspace) (err : error) (world : σ) :
    calls Call.isTrackServerEvent (handleRemoveError s ctx w err world []).trace
      = if s.telemetry.TelemetryEnabled ctx then 1 else 0 := by
  unfold handleRemoveError calls
  cases hen : s.telemetry.TelemetryEnabled ctx
  · simp
  · cases err <;> simp <;> split <;> simp [Call.isTrackServerEvent]

theorem handleRemoveError_calls_other (s : WorkspaceService σ) (ctx : Context)
    (w : Option Workspace) (err : error) (world : σ) (p : Call → Bool)
    (hTrack : ∀ ev c pr e, p (Call.TrackServerEvent ev c pr e) = false)
    (hLog : ∀ e, p (Call.logTrace e) = false) :
    calls p (handleRemoveError s ctx w err world []).trace = 0 := by
  unfold handleRemoveError calls
  cases hen : s.telemetry.TelemetryEnabled ctx
  · simp
  · cases err <;> simp <;> split <;> simp [hTrack, hLog]

/-! ## The exits of the two flows -/

theorem RemoveWorkspace_of_find_error (s : WorkspaceService σ) (ctx : Context)
    (workspaceId : String) (world w1 : σ) (v : Option Workspace) (e : GoError)
    (hWs : s.workspaceStore.Find workspaceId world = ((v, some e), w1)) :
    RemoveWorkspace s ctx workspaceId world
      = handleRemoveError s ctx v (some ErrWorkspaceNotFound) w1
          [Call.workspaceStoreFind workspaceId v (some e)] := by
  simp only [RemoveWorkspace, hWs]

theorem ForceRemoveWorkspace_of_find_error (s : WorkspaceService σ) (ctx : Context)
    (workspaceId : String) (world w1 : σ) (v : Option Workspace) (e : GoError)
    (hWs : s.workspaceStore.Find workspaceId world = ((v, some e), w1)) :
    ForceRemoveWorkspace s ctx workspaceId world
      = handleRemoveError s ctx v (some ErrWorkspaceNotFound) w1
          [Call.workspaceStoreFind workspaceId v (some e)] := by
  simp only [ForceRemoveWorkspace, hWs]

theorem RemoveWorkspace_of_target_error (s : WorkspaceService σ) (ctx : Context)
    (workspaceId : String) (world w1 w2 : σ) (W : Workspace) (v : Option Target) (e : GoError)
    (hWs : s.workspaceStore.Find workspaceId world = ((some W, none), w1))
    (hTarget : s.targetStore.Find W.TargetId w1 = ((v, some e), w2)) :
    RemoveWorkspace s ctx workspaceId world
      = handleRemoveError s ctx (some W) (some e) w2
          [Call.workspaceStoreFind workspaceId (some W) none,
           Call.logInfof ("Destroying workspace " ++ W.Name),
           Call.targetStoreFind W.TargetId v (some e)] := by
  simp only [RemoveWorkspace, hWs, hTarget, List.cons_append, List.nil_append]

theorem ForceRemoveWorkspace_of_target_error (s : WorkspaceService σ) (ctx : Context)
    (workspaceId : String) (world w1 w2 : σ) (W : Workspace) (v : Option Target) (e : GoError)
    (hWs : s.workspaceStore.Find workspaceId world = ((some W, none), w1))
    (hTarget : s.targetStore.Find W.TargetId w1 = ((v, some e), w2)) :
    ForceRemoveWorkspace s ctx workspaceId world
      = handleRemoveError s ctx (some W) (some e) w2
          [Call.workspaceStoreFind workspaceId (some W) none,
           Call.logInfof ("Destroying workspace " ++ W.Name),
           Call.targetStoreFind W.TargetId v (some e)] := by
  simp only [ForceRemoveWorkspace, hWs, hTarget, List.cons_append, List.nil_append]

theorem RemoveWorkspace_of_config_error (s : WorkspaceService σ) (ctx : Context)
    (workspaceId : String) (world w1 w2 w3 : σ) (W : Workspace) (target : Target)
    (v : Option TargetConfig) (e : GoError)
    (hWs : s.workspaceStore.Find workspaceId world = ((some W, none), w1))
    (hTarget : s.targetStore.Find W.TargetId w1 = ((some target, none), w2))
    (hConfig : s.targetConfigStore.Find ⟨some target.TargetConfig⟩ w2 = ((v, some e), w3)) :
    RemoveWorkspace s ctx workspaceId world
      = handleRemoveError s ctx (some W) (some e) w3
          [Call.workspaceStoreFind workspaceId (some W) none,
           Call.logInfof ("Destroying workspace " ++ W.Name),
           Call.targetStoreFind W.TargetId (some target) none,
           Call.targetConfigStoreFind ⟨some target.TargetConfig⟩ v (some e)] := by
  simp only [RemoveWorkspace, hWs, hTarget, hConfig, List.cons_append, List.nil_append]

theorem ForceRemoveWorkspace_of_config_error (s : WorkspaceService σ) (ctx : Context)
    (workspaceId : String) (world w1 w2 w3 : σ) (W : Workspace) (target : Target)
    (v : Option TargetConfig) (e : GoError)
    (hWs : s.workspaceStore.Find workspaceId world = ((some W, none), w1))
    (hTarget : s.targetStore.Find W.TargetId w1 = ((some target, none), w2))
    (hConfig : s.targetConfigStore.Find ⟨some target.TargetConfig⟩ w2 = ((v, some e), w3)) :
    ForceRemoveWorkspace s ctx workspaceId world
      = handleRemoveError s ctx (some W) (some e) w3
          [Call.workspaceStoreFind workspaceId (some W) none,
           Call.logInfof ("Destroying workspace " ++ W.Name),
           Call.targetStoreFind W.TargetId (some target) none,
           Call.targetConfigStoreFind ⟨some target.TargetConfig⟩ v (some e)] := by
  simp only [ForceRemoveWorkspace, hWs, hTarget, hConfig, List.cons_append, List.nil_append]

theorem RemoveWorkspace_of_destroy_error (s : WorkspaceService σ) (ctx : Context)
    (workspaceId : String) (world w1 w2 w3 w4 : σ) (W : Workspace) (target : Target)
    (targetConfig : Option TargetConfig) (e : GoError)
    (hWs : s.workspaceStore.Find workspaceId world = ((some W, none), w1))
    (hTarget : s.targetStore.Find W.TargetId w1 = ((some target, none), w2))
    (hConfig : s.targetConfigStore.Find ⟨some target.TargetConfig⟩ w2
      = ((targetConfig, none), w3))
    (hDestroy : s.provisioner.DestroyWorkspace W targetConfig w3 = (some e, w4)) :
    RemoveWorkspace s ctx workspaceId world
      = handleRemoveError s ctx (some W) (some e) w4
          (lookupCalls workspaceId W target targetConfig
            ++ [Call.DestroyWorkspace W targetConfig (some e)]) := by
  simp only [RemoveWorkspace, hWs, hTarget, hConfig, hDestroy, lookupCalls, List.cons_append,
    List.nil_append]

theorem RemoveWorkspace_of_destroyed (s : WorkspaceService σ) (ctx : Context)
    (workspaceId : String) (world w1 w2 w3 w4 w5 w6 w7 w8 : σ) (W : Workspace)
    (target : Target) (targetConfig : Option TargetConfig) (workspaceLogger : Logger σ)
    (rerr cerr derr : error)
    (hWs : s.workspaceStore.Find workspaceId world = ((some W, none), w1))
    (hTarget : s.targetStore.Find W.TargetId w1 = ((some target, none), w2))
    (hConfig : s.targetConfigStore.Find ⟨some target.TargetConfig⟩ w2
      = ((targetConfig, none), w3))
    (hDestroy : s.provisioner.DestroyWorkspace W targetConfig w3 = (none, w4))
    (hRevoke : s.apiKeyService.Revoke ("ws-" ++ W.Id) w4 = (rerr, w5))
    (hLogger : s.loggerFactory.CreateWorkspaceLogger W.Id W.Name LogSource.LogSourceServer w5
      = (workspaceLogger, w6))
    (hCleanup : workspaceLogger.Cleanup w6 = (cerr, w7))
    (hDelete : s.workspaceStore.Delete W w7 = (derr, w8)) :
    RemoveWorkspace s ctx workspaceId world
      = handleRemoveError s ctx (some W) derr w8
          (lookupCalls workspaceId W target targetConfig
            ++ teardownCalls W targetConfig none rerr cerr derr) := by
  simp only [RemoveWorkspace, hWs, hTarget, hConfig, hDestroy, hRevoke, hLogger, hCleanup,
    hDelete, lookupCalls, teardownCalls]
  cases rerr <;> cases cerr <;> simp [logIfError]

theorem ForceRemoveWorkspace_of_lookups (s : WorkspaceService σ) (ctx : Context)
    (workspaceId : String) (world w1 w2 w3 w4 w5 w6 w7 w8 : σ) (W : Workspace)
    (target : Target) (targetConfig : Option TargetConfig) (workspaceLogger : Logger σ)
    (perr rerr cerr derr : error)
    (hWs : s.workspaceStore.Find workspaceId world = ((some W, none), w1))
    (hTarget : s.targetStore.Find W.TargetId w1 = ((some target, none), w2))
    (hConfig : s.targetConfigStore.Find ⟨some target.TargetConfig⟩ w2
      = ((targetConfig, none), w3))
    (hDestroy : s.provisioner.DestroyWorkspace W targetConfig w3 = (perr, w4))
    (hRevoke : s.apiKeyService.Revoke ("ws-" ++ W.Id) w4 = (rerr, w5))
    (hLogger : s.loggerFactory.CreateWorkspaceLogger W.Id W.Name LogSource.LogSourceServer w5
      = (workspaceLogger, w6))
    (hCleanup : workspaceLogger.Cleanup w6 = (cerr, w7))
    (hDelete : s.workspaceStore.Delete W w7 = (derr, w8)) :
    ForceRemoveWorkspace s ctx workspaceId world
      = handleRemoveError s ctx (some W) derr w8
          (lookupCalls workspaceId W target targetConfig
            ++ teardownCalls W targetConfig perr rerr cerr derr) := by
  simp only [ForceRemoveWorkspace, hWs, hTarget, hConfig, hDestroy, hRevoke, hLogger, hCleanup,
    hDelete, lookupCalls, teardownCalls]
  cases perr <;> cases rerr <;> cases cerr <;> simp [logIfError]

theorem RemoveWorkspace_of_find_nil (s : WorkspaceService σ) (ctx : Context)
    (workspaceId : String) (world w1 : σ)
    (hWs : s.workspaceStore.Find workspaceId world = ((none, none), w1)) :
    RemoveWorkspace s ctx workspaceId world
      = ⟨Outcome.nilDereference, w1, [Call.workspaceStoreFind workspaceId none none]⟩ := by
  simp only [RemoveWorkspace, hWs]

theorem ForceRemoveWorkspace_of_find_nil (s : WorkspaceService σ) (ctx : Context)
    (workspaceId : String) (world w1 : σ)
    (hWs : s.workspaceStore.Find workspaceId world = ((none, none), w1)) :
    ForceRemoveWorkspace s ctx workspaceId world
      = ⟨Outcome.nilDereference, w1, [Call.workspaceStoreFind workspaceId none none]⟩ := by
  simp only [ForceRemoveWorkspace, hWs]

theorem RemoveWorkspace_of_target_nil (s : WorkspaceService σ) (ctx : Context)
    (workspaceId : String) (world w1 w2 : σ) (W : Workspace)
    (hWs : s.workspaceStore.Find workspaceId world = ((some W, none), w1))
    (hTarget : s.targetStore.Find W.TargetId w1 = ((none, none), w2)) :
    RemoveWorkspace s ctx workspaceId world
      = ⟨Outcome.nilDereference, w2,
          [Call.workspaceStoreFind workspaceId (some W) none,
           Call.logInfof ("Destroying workspace " ++ W.Name),
           Call.targetStoreFind W.TargetId none none]⟩ := by
  simp only [RemoveWorkspace, hWs, hTarget, List.cons_append, List.nil_append]

theorem ForceRemoveWorkspace_of_target_nil (s : WorkspaceService σ) (ctx : Context)
    (workspaceId : String) (world w1 w2 : σ) (W : Workspace)
    (hWs : s.workspaceStore.Find workspaceId world = ((some W, none), w1))
    (hTarget : s.targetStore.Find W.TargetId w1 = ((none, none), w2)) :
    ForceRemoveWorkspace s ctx workspaceId world
      = ⟨Outcome.nilDereference, w2,
          [Call.workspaceStoreFind workspaceId (some W) none,
           Call.logInfof ("Destroying workspace " ++ W.Name),
           Call.targetStoreFind W.TargetId none none]⟩ := by
  simp only [ForceRemoveWorkspace, hWs, hTarget, List.cons_append, List.nil_append]

/-- Every way the collaborators can answer along the flow: the workspace lookup
fails, or hands back nothing, or succeeds; then likewise the target lookup; then
the config lookup fails or succeeds, after which steps 4 to 7 each return. -/
theorem collaborators_cases (s : WorkspaceService σ) (workspaceId : String) (world : σ) :
    (∃ v e w1, s.workspaceStore.Find workspaceId world = ((v, some e), w1)) ∨
    (∃ w1, s.workspaceStore.Find workspaceId world = ((none, none), w1)) ∨
    (∃ W w1, s.workspaceStore.Find workspaceId world = ((some W, none), w1) ∧
      ((∃ v e w2, s.targetStore.Find W.TargetId w1 = ((v, some e), w2)) ∨
       (∃ w2, s.targetStore.Find W.TargetId w1 = ((none, none), w2)) ∨
       (∃ target w2, s.targetStore.Find W.TargetId w1 = ((some target, none), w2) ∧
         ((∃ v e w3,
            s.targetConfigStore.Find ⟨some target.TargetConfig⟩ w2 = ((v, some e), w3)) ∨
          (∃ targetConfig w3 perr w4 rerr w5 workspaceLogger w6 cerr w7 derr w8,
            s.targetConfigStore.Find ⟨some target.TargetConfig⟩ w2
              = ((targetConfig, none), w3) ∧
            s.provisioner.DestroyWorkspace W targetConfig w3 = (perr, w4) ∧
            s.apiKeyService.Revoke ("ws-" ++ W.Id) w4 = (rerr, w5) ∧
            s.loggerFactory.CreateWorkspaceLogger W.Id W.Name LogSource.LogSourceServer w5
              = (workspaceLogger, w6) ∧
            workspaceLogger.Cleanup w6 = (cerr, w7) ∧
            s.workspaceStore.Delete W w7 = (derr, w8)))))) := by
  rcases h1 : s.workspaceStore.Find workspaceId world with ⟨⟨ws, err⟩, w1⟩
  rcases err with _ | e
  swap
  · exact Or.inl ⟨ws, e, w1, rfl⟩
  rcases ws with _ | W
  · exact Or.inr (Or.inl ⟨w1, rfl⟩)
  refine Or.inr (Or.inr ⟨W, w1, rfl, ?_⟩)
  rcases h2 : s.targetStore.Find W.TargetId w1 with ⟨⟨t, err⟩, w2⟩
  rcases err with _ | e
  swap
  · exact Or.inl ⟨t, e, w2, rfl⟩
  rcases t with _ | target
  · exact Or.inr (Or.inl ⟨w2, rfl⟩)
  refine Or.inr (Or.inr ⟨target, w2, rfl, ?_⟩)
  rcases h3 : s.targetConfigStore.Find ⟨some target.TargetConfig⟩ w2 with ⟨⟨tc, err⟩, w3⟩
  rcases err with _ | e
  swap
  · exact Or.inl ⟨tc, e, w3, rfl⟩
  exact Or.inr ⟨tc, w3, _, _, _, _, _, _, _, _, _, _, rfl, rfl, rfl, rfl, rfl, rfl⟩

theorem handleRemoveError_view {α : Type} (s : WorkspaceService σ) (view : σ → α)
    (hTrack : ∀ event clientId props w,
      view (s.telemetryService.TrackServerEvent event clientId props w).2 = view w)
    (ctx : Context) (w : Option Workspace) (err : error) (world : σ) (trace : List Call) :
    view (handleRemoveError s ctx w err world trace).world = view world := by
  unfold handleRemoveError
  split
  · rfl
  · cases err <;> simp [hTrack]

/-! ## Facts about the in-memory environment -/

theorem memService_onlyDeleteChanges (f : Faults) :
    OnlyDeleteChanges (memService f) memRecords := by
  constructor
  · intro id w
    simp only [memService, memWorkspaceStore]
    split <;> rfl
  · intro id w
    simp only [memService, memTargetStore]
    split <;> rfl
  · intro filter w
    simp only [memService, memTargetConfigStore]
    split <;> rfl
  · intro ws tc w
    simp only [memService, memProvisioner]
    split <;> rfl
  · intro name w
    simp only [memService, memApiKeyService]
    split <;> rfl
  · intro id name source w
    rfl
  · intro id name source w w0
    simp only [memService, memLoggerFactory]
    split <;> rfl
  · intro event clientId props w
    rfl

theorem memService_isWorkspaceTable (f : Faults) :
    IsWorkspaceTable (memService f) memRecords := by
  constructor
  · intro id w ws h
    simp only [memRecords] at h
    simp only [memService, memWorkspaceStore, h]
  · intro id w h
    simp only [memRecords] at h
    simp [memService, memWorkspaceStore, h]
  · intro ws w hd id h
    simp only [memService, memWorkspaceStore] at hd ⊢
    cases hl : w.locked
    · have hid : ws.Id = id := by
        have := List.find?_some h
        simpa using this
      simp only [hl, memRecords, Bool.false_eq_true, if_false]
      rw [List.find?_eq_none]
      intro x hx
      simp only [List.mem_filter] at hx
      simpa [hid] using hx.2
    · simp [hl] at hd

/-- Reporting adds no call to the provisioner, to `Revoke`, to the logger factory,
to `Cleanup` or to `Delete`. -/
theorem calls_report_eq_zero (s : WorkspaceService σ) (ctx : Context)
    (w : Option Workspace) (err : error) (world : σ) (trace : List Call) (p : Call → Bool)
    (hp : p ∈ [Call.isDestroyWorkspace, Call.isRevoke, Call.isCreateWorkspaceLogger,
      Call.isCleanup, Call.isDelete])
    (hTrace : calls p trace = 0) :
    calls p (handleRemoveError s ctx w err world trace).trace = 0 := by
  rw [handleRemoveError_trace]
  have h0 : calls p (handleRemoveError s ctx w err world []).trace = 0 := by
    apply handleRemoveError_calls_other
    · intro ev c pr e
      simp only [List.mem_cons, List.mem_singleton, List.not_mem_nil, or_false] at hp
      rcases hp with rfl | rfl | rfl | rfl | rfl <;> rfl
    · intro e
      simp only [List.mem_cons, List.mem_singleton, List.not_mem_nil, or_false] at hp
      rcases hp with rfl | rfl | rfl | rfl | rfl <;> rfl
  unfold calls at *
  rw [List.countP_append, hTrace, h0]

theorem records_of_find (s : WorkspaceService σ) (records : σ → String → Option Workspace)
    (hTable : IsWorkspaceTable s records) (workspaceId : String) (world w1 : σ) (W : Workspace)
    (hWs : s.workspaceStore.Find workspaceId world = ((some W, none), w1)) :
    records world workspaceId = some W := by
  cases hrec : records world workspaceId with
  | none =>
    have h := hTable.find_absent workspaceId world hrec
    rw [hWs] at h
    exact absurd rfl h
  | some W0 =>
    have h := hTable.find_present workspaceId world W0 hrec
    rw [hWs] at h
    simp only [Prod.mk.injEq, Option.some.injEq, and_true] at h
    rw [h]

theorem view_before_delete {α : Type} (s : WorkspaceService σ) (view : σ → α)
    (hv : OnlyDeleteChanges s view)
    (workspaceId : String) (world w1 w2 w3 w4 w5 w6 w7 : σ) (W : Workspace)
    (target : Target) (targetConfig : Option TargetConfig) (workspaceLogger : Logger σ)
    (perr rerr cerr : error)
    (hWs : s.workspaceStore.Find workspaceId world = ((some W, none), w1))
    (hTarget : s.targetStore.Find W.TargetId w1 = ((some target, none), w2))
    (hConfig : s.targetConfigStore.Find ⟨some target.TargetConfig⟩ w2
      = ((targetConfig, none), w3))
    (hDestroy : s.provisioner.DestroyWorkspace W targetConfig w3 = (perr, w4))
    (hRevoke : s.apiKeyService.Revoke ("ws-" ++ W.Id) w4 = (rerr, w5))
    (hLogger : s.loggerFactory.CreateWorkspaceLogger W.Id W.Name LogSource.LogSourceServer w5
      = (workspaceLogger, w6))
    (hCleanup : workspaceLogger.Cleanup w6 = (cerr, w7)) :
    view w7 = view world := by
  have e1 := hv.workspaceFind workspaceId world
  have e2 := hv.targetFind W.TargetId w1
  have e3 := hv.targetConfigFind ⟨some target.TargetConfig⟩ w2
  have e4 := hv.destroyWorkspace W targetConfig w3
  have e5 := hv.revoke ("ws-" ++ W.Id) w4
  have e6 := hv.createWorkspaceLogger W.Id W.Name LogSource.LogSourceServer w5
  have e7 := hv.cleanup W.Id W.Name LogSource.LogSourceServer w6 w5
  rw [hWs] at e1
  rw [hTarget] at e2
  rw [hConfig] at e3
  rw [hDestroy] at e4
  rw [hRevoke] at e5
  rw [hLogger] at e6
  rw [hLogger, hCleanup] at e7
  exact e7.trans (e6.trans (e5.trans (e4.trans (e3.trans (e2.trans e1)))))

theorem mem_teardownCalls (W : Workspace) (targetConfig : Option TargetConfig)
    (perr rerr cerr derr : error) :
    Call.DestroyWorkspace W targetConfig perr ∈ teardownCalls W targetConfig perr rerr cerr derr ∧
    Call.Revoke ("ws-" ++ W.Id) rerr ∈ teardownCalls W targetConfig perr rerr cerr derr ∧
    Call.Cleanup cerr ∈ teardownCalls W targetConfig perr rerr cerr derr ∧
    Call.workspaceStoreDelete W derr ∈ teardownCalls W targetConfig perr rerr cerr derr := by
  cases perr <;> cases rerr <;> cases cerr <;> simp [teardownCalls, logIfError]

theorem calls_isDelete_teardown (workspaceId : String) (W : Workspace) (target : Target)
    (targetConfig : Option TargetConfig) (perr rerr cerr derr : error) :
    calls Call.isDelete (lookupCalls workspaceId W target targetConfig
      ++ teardownCalls W targetConfig perr rerr cerr derr) = 1 := by
  cases perr <;> cases rerr <;> cases cerr <;>
    simp [calls, lookupCalls, teardownCalls, logIfError, Call.isDelete]

theorem calls_track_report (s : WorkspaceService σ) (ctx : Context)
    (w : Option Workspace) (err : error) (world : σ) (trace : List Call)
    (hTrace : calls Call.isTrackServerEvent trace = 0) :
    calls Call.isTrackServerEvent (handleRemoveError s ctx w err world trace).trace
      = if s.telemetry.TelemetryEnabled ctx then 1 else 0 := by
  rw [handleRemoveError_trace]
  have h0 := handleRemoveError_calls_track s ctx w err world
  unfold calls at *
  rw [List.countP_append, hTrace, h0, Nat.zero_add]

theorem calls_track_teardown (workspaceId : String) (W : Workspace) (target : Target)
    (targetConfig : Option TargetConfig) (perr rerr cerr derr : error) :
    calls Call.isTrackServerEvent (lookupCalls workspaceId W target targetConfig
      ++ teardownCalls W targetConfig perr rerr cerr derr) = 0 := by
  cases perr <;> cases rerr <;> cases cerr <;>
    simp [calls, lookupCalls, teardownCalls, logIfError, Call.isTrackServerEvent]

/-- Two services that share the stores, the provisioner, the API key service and the
logger factory end both flows the same way, whatever their telemetry service,
telemetry settings and contexts are. -/
theorem outcome_eq_of_shared_collaborators (s s0 : WorkspaceService σ) (ctx ctx0 : Context)
    (workspaceId : String) (world : σ)
    (hws : s0.workspaceStore = s.workspaceStore) (ht : s0.targetStore = s.targetStore)
    (htc : s0.targetConfigStore = s.targetConfigStore) (hp : s0.provisioner = s.provisioner)
    (ha : s0.apiKeyService = s.apiKeyService) (hl : s0.loggerFactory = s.loggerFactory) :
    (RemoveWorkspace s0 ctx0 workspaceId world).outcome
      = (RemoveWorkspace s ctx workspaceId world).outcome ∧
    (ForceRemoveWorkspace s0 ctx0 workspaceId world).outcome
      = (ForceRemoveWorkspace s ctx workspaceId world).outcome := by
  have cs := collaborators_cases s workspaceId world
  constructor
  · rcases cs with
      ⟨v, e, w1, h1⟩ | ⟨w1, h1⟩ | ⟨W, w1, h1, ⟨v, e, w2, h2⟩ | ⟨w2, h2⟩ |
        ⟨target, w2, h2, ⟨v, e, w3, h3⟩ |
          ⟨tc, w3, perr, w4, rerr, w5, lg, w6, cerr, w7, derr, w8, h3, h4, h5, h6, h7, h8⟩⟩⟩
    · rw [RemoveWorkspace_of_find_error s ctx workspaceId world w1 v e h1,
        RemoveWorkspace_of_find_error s0 ctx0 workspaceId world w1 v e (hws ▸ h1),
        handleRemoveError_outcome, handleRemoveError_outcome]
    · rw [RemoveWorkspace_of_find_nil s ctx workspaceId world w1 h1,
        RemoveWorkspace_of_find_nil s0 ctx0 workspaceId world w1 (hws ▸ h1)]
    · rw [RemoveWorkspace_of_target_error s ctx workspaceId world w1 w2 W v e h1 h2,
        RemoveWorkspace_of_target_error s0 ctx0 workspaceId world w1 w2 W v e (hws ▸ h1)
          (ht ▸ h2),
        handleRemoveError_outcome, handleRemoveError_outcome]
    · rw [RemoveWorkspace_of_target_nil s ctx workspaceId world w1 w2 W h1 h2,
        RemoveWorkspace_of_target_nil s0 ctx0 workspaceId world w1 w2 W (hws ▸ h1) (ht ▸ h2)]
    · rw [RemoveWorkspace_of_config_error s ctx workspaceId world w1 w2 w3 W target v e h1 h2 h3,
        RemoveWorkspace_of_config_error s0 ctx0 workspaceId world w1 w2 w3 W target v e
          (hws ▸ h1) (ht ▸ h2) (htc ▸ h3),
        handleRemoveError_outcome, handleRemoveError_outcome]
    · cases perr with
      | some e =>
        rw [RemoveWorkspace_of_destroy_error s ctx workspaceId world w1 w2 w3 w4 W target tc e
            h1 h2 h3 h4,
          RemoveWorkspace_of_destroy_error s0 ctx0 workspaceId world w1 w2 w3 w4 W target tc e
            (hws ▸ h1) (ht ▸ h2) (htc ▸ h3) (hp ▸ h4),
          handleRemoveError_outcome, handleRemoveError_outcome]
      | none =>
        rw [RemoveWorkspace_of_destroyed s ctx workspaceId world w1 w2 w3 w4 w5 w6 w7 w8 W
            target tc lg rerr cerr derr h1 h2 h3 h4 h5 h6 h7 h8,
          RemoveWorkspace_of_destroyed s0 ctx0 workspaceId world w1 w2 w3 w4 w5 w6 w7 w8 W
            target tc lg rerr cerr derr (hws ▸ h1) (ht ▸ h2) (htc ▸ h3) (hp ▸ h4) (ha ▸ h5)
            (hl ▸ h6) h7 (hws ▸ h8),
          handleRemoveError_outcome, handleRemoveError_outcome]
  · rcases cs with
      ⟨v, e, w1, h1⟩ | ⟨w1, h1⟩ | ⟨W, w1, h1, ⟨v, e, w2, h2⟩ | ⟨w2, h2⟩ |
        ⟨target, w2, h2, ⟨v, e, w3, h3⟩ |
          ⟨tc, w3, perr, w4, rerr, w5, lg, w6, cerr, w7, derr, w8, h3, h4, h5, h6, h7, h8⟩⟩⟩
    · rw [ForceRemoveWorkspace_of_find_error s ctx workspaceId world w1 v e h1,
        ForceRemoveWorkspace_of_find_error s0 ctx0 workspaceId world w1 v e (hws ▸ h1),
        handleRemoveError_outcome, handleRemoveError_outcome]
    · rw [ForceRemoveWorkspace_of_find_nil s ctx workspaceId world w1 h1,
        ForceRemoveWorkspace_of_find_nil s0 ctx0 workspaceId world w1 (hws ▸ h1)]
    · rw [ForceRemoveWorkspace_of_target_error s ctx workspaceId world w1 w2 W v e h1 h2,
        ForceRemoveWorkspace_of_target_error s0 ctx0 workspaceId world w1 w2 W v e (hws ▸ h1)
          (ht ▸ h2),
        handleRemoveError_outcome, handleRemoveError_outcome]
    · rw [ForceRemoveWorkspace_of_target_nil s ctx workspaceId world w1 w2 W h1 h2,
        ForceRemoveWorkspace_of_target_nil s0 ctx0 workspaceId world w1 w2 W (hws ▸ h1)
          (ht ▸ h2)]
    · rw [ForceRemoveWorkspace_of_config_error s ctx workspaceId world w1 w2 w3 W target v e
          h1 h2 h3,
        ForceRemoveWorkspace_of_config_error s0 ctx0 workspaceId world w1 w2 w3 W target v e
          (hws ▸ h1) (ht ▸ h2) (htc ▸ h3),
        handleRemoveError_outcome, handleRemoveError_outcome]
    · rw [ForceRemoveWorkspace_of_lookups s ctx workspaceId world w1 w2 w3 w4 w5 w6 w7 w8 W
          target tc lg perr rerr cerr derr h1 h2 h3 h4 h5 h6 h7 h8,
        ForceRemoveWorkspace_of_lookups s0 ctx0 workspaceId world w1 w2 w3 w4 w5 w6 w7 w8 W
          target tc lg perr rerr cerr derr (hws ▸ h1) (ht ▸ h2) (htc ▸ h3) (hp ▸ h4)
          (ha ▸ h5) (hl ▸ h6) h7 (hws ▸ h8),
        handleRemoveError_outcome, handleRemoveError_outcome]

/-- After a forced removal whose `Delete` succeeded, on a store that behaves as a
table of records which only `Delete` changes, the id has no record. -/
theorem ForceRemoveWorkspace_removes_record (s : WorkspaceService σ) (ctx : Context)
    (workspaceId : String) (world w1 w2 w3 w4 w5 w6 w7 w8 : σ) (W : Workspace)
    (target : Target) (targetConfig : Option TargetConfig) (workspaceLogger : Logger σ)
    (perr rerr cerr : error) (records : σ → String → Option Workspace)
    (hv : OnlyDeleteChanges s records) (hTable : IsWorkspaceTable s records)
    (hWs : s.workspaceStore.Find workspaceId world = ((some W, none), w1))
    (hTarget : s.targetStore.Find W.TargetId w1 = ((some target, none), w2))
    (hConfig : s.targetConfigStore.Find ⟨some target.TargetConfig⟩ w2
      = ((targetConfig, none), w3))
    (hDestroy : s.provisioner.DestroyWorkspace W targetConfig w3 = (perr, w4))
    (hRevoke : s.apiKeyService.Revoke ("ws-" ++ W.Id) w4 = (rerr, w5))
    (hLogger : s.loggerFactory.CreateWorkspaceLogger W.Id W.Name LogSource.LogSourceServer w5
      = (workspaceLogger, w6))
    (hCleanup : workspaceLogger.Cleanup w6 = (cerr, w7))
    (hDelete : s.workspaceStore.Delete W w7 = (none, w8)) :
    records (ForceRemoveWorkspace s ctx workspaceId world).world workspaceId = none := by
  rw [ForceRemoveWorkspace_of_lookups s ctx workspaceId world w1 w2 w3 w4 w5 w6 w7 w8 W target
    targetConfig workspaceLogger perr rerr cerr none hWs hTarget hConfig hDestroy hRevoke
    hLogger hCleanup hDelete]
  rw [handleRemoveError_view s records hv.trackServerEvent]
  have h7 : records w7 = records world :=
    view_before_delete s records hv workspaceId world w1 w2 w3 w4 w5 w6 w7 W target
      targetConfig workspaceLogger perr rerr cerr hWs hTarget hConfig hDestroy hRevoke
      hLogger hCleanup
  have hrec : records w7 workspaceId = some W := by
    rw [h7]
    exact records_of_find s records hTable workspaceId world w1 W hWs
  have h := hTable.delete_removes W w7 (by rw [hDelete]) workspaceId hrec
  rw [hDelete] at h
  exact h

theorem mem_lookupCalls (workspaceId : String) (W : Workspace) (target : Target)
    (targetConfig : Option TargetConfig) :
    Call.workspaceStoreFind workspaceId (some W) none
      ∈ lookupCalls workspaceId W target targetConfig := by
  simp [lookupCalls]

theorem collaboratorCalls_append (a b : List Call) :
    collaboratorCalls (a ++ b) = collaboratorCalls a ++ collaboratorCalls b := by
  simp [collaboratorCalls]

/-- The one collaborator call `handleRemoveError` makes, when telemetry is enabled. -/
theorem collaboratorCalls_report (s : WorkspaceService σ) (ctx : Context)
    (w : Option Workspace) (err : error) (world : σ) :
    collaboratorCalls (handleRemoveError s ctx w err world []).trace
      = if s.telemetry.TelemetryEnabled ctx then
          [Call.TrackServerEvent (reportEvent err) (s.telemetry.ClientId ctx)
            (reportProps s ctx w err)
            (s.telemetryService.TrackServerEvent (reportEvent err) (s.telemetry.ClientId ctx)
              (reportProps s ctx w err) world).1]
        else [] := by
  unfold handleRemoveError collaboratorCalls
  cases hen : s.telemetry.TelemetryEnabled ctx
  · simp
  · cases err <;> simp [reportEvent, reportProps] <;> split <;> simp [Call.isLog]

theorem collaboratorCalls_teardown (workspaceId : String) (W : Workspace) (target : Target)
    (targetConfig : Option TargetConfig) (rerr cerr derr : error) :
    collaboratorCalls (lookupCalls workspaceId W target targetConfig
        ++ teardownCalls W targetConfig none rerr cerr derr)
      = [Call.workspaceStoreFind workspaceId (some W) none,
         Call.targetStoreFind W.TargetId (some target) none,
         Call.targetConfigStoreFind ⟨some target.TargetConfig⟩ targetConfig none,
         Call.DestroyWorkspace W targetConfig none,
         Call.Revoke ("ws-" ++ W.Id) rerr,
         Call.CreateWorkspaceLogger W.Id W.Name LogSource.LogSourceServer,
         Call.Cleanup cerr,
         Call.workspaceStoreDelete W derr] := by
  cases rerr <;> cases cerr <;>
    simp [collaboratorCalls, lookupCalls, teardownCalls, logIfError, Call.isLog]

/-- The world `handleRemoveError` leaves: the one the telemetry service leaves after
the report when telemetry is enabled, the one it was handed otherwise. -/
theorem handleRemoveError_world_eq (s : WorkspaceService σ) (ctx : Context)
    (w : Option Workspace) (err : error) (world : σ) (trace : List Call) :
    (handleRemoveError s ctx w err world trace).world
      = if s.telemetry.TelemetryEnabled ctx then
          (s.telemetryService.TrackServerEvent (reportEvent err) (s.telemetry.ClientId ctx)
            (reportProps s ctx w err) world).2
        else world := by
  unfold handleRemoveError
  cases hen : s.telemetry.TelemetryEnabled ctx
  · simp
  · cases err <;> simp [reportEvent, reportProps]

/-- After a removal whose `Delete` succeeded, on a store that behaves as a table of
records which only `Delete` changes, the id has no record. -/
theorem RemoveWorkspace_removes_record (s : WorkspaceService σ) (ctx : Context)
    (workspaceId : String) (world w1 w2 w3 w4 w5 w6 w7 w8 : σ) (W : Workspace)
    (target : Target) (targetConfig : Option TargetConfig) (workspaceLogger : Logger σ)
    (rerr cerr : error) (records : σ → String → Option Workspace)
    (hv : OnlyDeleteChanges s records) (hTable : IsWorkspaceTable s records)
    (hWs : s.workspaceStore.Find workspaceId world = ((some W, none), w1))
    (hTarget : s.targetStore.Find W.TargetId w1 = ((some target, none), w2))
    (hConfig : s.targetConfigStore.Find ⟨some target.TargetConfig⟩ w2
      = ((targetConfig, none), w3))
    (hDestroy : s.provisioner.DestroyWorkspace W targetConfig w3 = (none, w4))
    (hRevoke : s.apiKeyService.Revoke ("ws-" ++ W.Id) w4 = (rerr, w5))
    (hLogger : s.loggerFactory.CreateWorkspaceLogger W.Id W.Name LogSource.LogSourceServer w5
      = (workspaceLogger, w6))
    (hCleanup : workspaceLogger.Cleanup w6 = (cerr, w7))
    (hDelete : s.workspaceStore.Delete W w7 = (none, w8)) :
    records (RemoveWorkspace s ctx workspaceId world).world workspaceId = none := by
  rw [RemoveWorkspace_of_destroyed s ctx workspaceId world w1 w2 w3 w4 w5 w6 w7 w8 W target
    targetConfig workspaceLogger rerr cerr none hWs hTarget hConfig hDestroy hRevoke
    hLogger hCleanup hDelete]
  rw [handleRemoveError_view s records hv.trackServerEvent]
  have h7 : records w7 = records world :=
    view_before_delete s records hv workspaceId world w1 w2 w3 w4 w5 w6 w7 W target
      targetConfig workspaceLogger none rerr cerr hWs hTarget hConfig hDestroy hRevoke
      hLogger hCleanup
  have hrec : records w7 workspaceId = some W := by
    rw [h7]
    exact records_of_find s records hTable workspaceId world w1 W hWs
  have h := hTable.delete_removes W w7 (by rw [hDelete]) workspaceId hrec
  rw [hDelete] at h
  exact h

end Lemmas

/-! ## The teardown contract -/

section Contract

variable {σ : Type}

/-- C1: when the three lookups succeed and `provisioner.DestroyWorkspace` returns an
error `e`, `RemoveWorkspace` returns exactly `e` and makes no call to
`apiKeyService.Revoke`, to the workspace logger's `Cleanup` or to
`workspaceStore.Delete`; hence every reading of the world that only `Delete` can
change, such as the stored record, is what it was before the call. -/
theorem RemoveWorkspace_destroy_error_fatal (s : WorkspaceService σ) (ctx : Context)
    (workspaceId : String) (world w1 w2 w3 w4 : σ) (W : Workspace) (target : Target)
    (targetConfig : Option TargetConfig) (e : GoError)
    (hWs : s.workspaceStore.Find workspaceId world = ((some W, none), w1))
    (hTarget : s.targetStore.Find W.TargetId w1 = ((some target, none), w2))
    (hConfig : s.targetConfigStore.Find ⟨some target.TargetConfig⟩ w2
      = ((targetConfig, none), w3))
    (hDestroy : s.provisioner.DestroyWorkspace W targetConfig w3 = (some e, w4)) :
    (RemoveWorkspace s ctx workspaceId world).outcome = Outcome.returned (some e) ∧
    calls Call.isRevoke (RemoveWorkspace s ctx workspaceId world).trace = 0 ∧
    calls Call.isCleanup (RemoveWorkspace s ctx workspaceId world).trace = 0 ∧
    calls Call.isDelete (RemoveWorkspace s ctx workspaceId world).trace = 0 ∧
    ∀ (α : Type) (view : σ → α), OnlyDeleteChanges s view →
      view (RemoveWorkspace s ctx workspaceId world).world = view world := by
  rw [RemoveWorkspace_of_destroy_error s ctx workspaceId world w1 w2 w3 w4 W target
    targetConfig e hWs hTarget hConfig hDestroy]
  refine ⟨handleRemoveError_outcome _ _ _ _ _ _, ?_, ?_, ?_, ?_⟩
  · exact calls_report_eq_zero _ _ _ _ _ _ _ (by simp) rfl
  · exact calls_report_eq_zero _ _ _ _ _ _ _ (by simp) rfl
  · exact calls_report_eq_zero _ _ _ _ _ _ _ (by simp) rfl
  · intro α view hv
    rw [handleRemoveError_view s view hv.trackServerEvent]
    have e1 := hv.workspaceFind workspaceId world
    have e2 := hv.targetFind W.TargetId w1
    have e3 := hv.targetConfigFind ⟨some target.TargetConfig⟩ w2
    have e4 := hv.destroyWorkspace W targetConfig w3
    rw [hWs] at e1
    rw [hTarget] at e2
    rw [hConfig] at e3
    rw [hDestroy] at e4
    exact e4.trans (e3.trans (e2.trans e1))

/-- Witness for C1: with an unreachable provider, `RemoveWorkspace("w1")` returns
`ErrProviderUnreachable`, makes none of the later calls and leaves `w1` stored. -/
theorem RemoveWorkspace_destroy_error_fatal_witness :
    (RemoveWorkspace (memService providerDown) ctxOn "w1" world1).outcome
        = Outcome.returned (some ErrProviderUnreachable) ∧
    calls Call.isDelete (RemoveWorkspace (memService providerDown) ctxOn "w1" world1).trace = 0 ∧
    memRecords (RemoveWorkspace (memService providerDown) ctxOn "w1" world1).world "w1"
        = some workspaceW1 :=
  have h := RemoveWorkspace_destroy_error_fatal (memService providerDown) ctxOn "w1"
    world1 world1 world1 world1 world1 workspaceW1 targetT1 (some localConfig)
    ErrProviderUnreachable rfl rfl rfl rfl
  ⟨h.1, h.2.2.2.1,
    (congrFun (h.2.2.2.2 _ memRecords (memService_onlyDeleteChanges providerDown)) "w1").trans
      rfl⟩

/-- C2: when the three lookups succeed and `provisioner.DestroyWorkspace` returns an
error, `ForceRemoveWorkspace` still calls `Revoke`, `Cleanup` and
`workspaceStore.Delete(W)` and returns exactly what `Delete` returned, never the
provider error as such; when `Delete` succeeded on a store that behaves as a table
of records, the id has no record afterwards. -/
theorem ForceRemoveWorkspace_destroy_error_ignored (s : WorkspaceService σ) (ctx : Context)
    (workspaceId : String) (world w1 w2 w3 w4 w5 w6 w7 w8 : σ) (W : Workspace)
    (target : Target) (targetConfig : Option TargetConfig) (workspaceLogger : Logger σ)
    (e : GoError) (rerr cerr derr : error)
    (hWs : s.workspaceStore.Find workspaceId world = ((some W, none), w1))
    (hTarget : s.targetStore.Find W.TargetId w1 = ((some target, none), w2))
    (hConfig : s.targetConfigStore.Find ⟨some target.TargetConfig⟩ w2
      = ((targetConfig, none), w3))
    (hDestroy : s.provisioner.DestroyWorkspace W targetConfig w3 = (some e, w4))
    (hRevoke : s.apiKeyService.Revoke ("ws-" ++ W.Id) w4 = (rerr, w5))
    (hLogger : s.loggerFactory.CreateWorkspaceLogger W.Id W.Name LogSource.LogSourceServer w5
      = (workspaceLogger, w6))
    (hCleanup : workspaceLogger.Cleanup w6 = (cerr, w7))
    (hDelete : s.workspaceStore.Delete W w7 = (derr, w8)) :
    (ForceRemoveWorkspace s ctx workspaceId world).outcome = Outcome.returned derr ∧
    Call.Revoke ("ws-" ++ W.Id) rerr ∈ (ForceRemoveWorkspace s ctx workspaceId world).trace ∧
    Call.Cleanup cerr ∈ (ForceRemoveWorkspace s ctx workspaceId world).trace ∧
    Call.workspaceStoreDelete W derr ∈ (ForceRemoveWorkspace s ctx workspaceId world).trace ∧
    ∀ records : σ → String → Option Workspace,
      OnlyDeleteChanges s records → IsWorkspaceTable s records → derr = none →
      records (ForceRemoveWorkspace s ctx workspaceId world).world workspaceId = none := by
  rw [ForceRemoveWorkspace_of_lookups s ctx workspaceId world w1 w2 w3 w4 w5 w6 w7 w8 W target
    targetConfig workspaceLogger (some e) rerr cerr derr hWs hTarget hConfig hDestroy hRevoke
    hLogger hCleanup hDelete]
  have hm := mem_teardownCalls W targetConfig (some e) rerr cerr derr
  refine ⟨handleRemoveError_outcome _ _ _ _ _ _, ?_, ?_, ?_, ?_⟩
  · rw [handleRemoveError_trace]
    exact List.mem_append_left _ (List.mem_append_right _ hm.2.1)
  · rw [handleRemoveError_trace]
    exact List.mem_append_left _ (List.mem_append_right _ hm.2.2.1)
  · rw [handleRemoveError_trace]
    exact List.mem_append_left _ (List.mem_append_right _ hm.2.2.2)
  · intro records hv hTable hd
    rw [handleRemoveError_view s records hv.trackServerEvent]
    have h7 : records w7 = records world :=
      view_before_delete s records hv workspaceId world w1 w2 w3 w4 w5 w6 w7 W target
        targetConfig workspaceLogger (some e) rerr cerr hWs hTarget hConfig hDestroy hRevoke
        hLogger hCleanup
    have hrec : records w7 workspaceId = some W := by
      rw [h7]
      exact records_of_find s records hTable workspaceId world w1 W hWs
    have h := hTable.delete_removes W w7 (by rw [hDelete]; exact hd) workspaceId hrec
    rw [hDelete] at h
    exact h

/-- Witness for C2: with an unreachable provider, `ForceRemoveWorkspace("w1")`
returns no error, has called `Revoke("ws-w1")`, and `w1` is gone from the store. -/
theorem ForceRemoveWorkspace_destroy_error_ignored_witness :
    (ForceRemoveWorkspace (memService providerDown) ctxOn "w1" world1).outcome
        = Outcome.returned none ∧
    Call.Revoke "ws-w1" none
        ∈ (ForceRemoveWorkspace (memService providerDown) ctxOn "w1" world1).trace ∧
    memRecords (ForceRemoveWorkspace (memService providerDown) ctxOn "w1" world1).world "w1"
        = none :=
  have h := ForceRemoveWorkspace_destroy_error_ignored (memService providerDown) ctxOn "w1"
    world1 world1 world1 world1 world1
    { world1 with revoked := ["ws-w1"] }
    { world1 with revoked := ["ws-w1"] }
    { world1 with revoked := ["ws-w1"], cleaned := ["w1"] }
    { world1 with revoked := ["ws-w1"], cleaned := ["w1"], workspaces := [] }
    workspaceW1 targetT1 (some localConfig)
    ((memService providerDown).loggerFactory.CreateWorkspaceLogger "w1" "dev"
      LogSource.LogSourceServer { world1 with revoked := ["ws-w1"] }).1
    ErrProviderUnreachable none none none rfl rfl rfl rfl rfl rfl rfl rfl
  ⟨h.1, h.2.1,
    h.2.2.2.2 memRecords (memService_onlyDeleteChanges providerDown)
      (memService_isWorkspaceTable providerDown) rfl⟩

/-- C3: when `workspaceStore.Find` fails, with whatever error, both `RemoveWorkspace`
and `ForceRemoveWorkspace` return `ErrWorkspaceNotFound` and make no call to the
provisioner, to `Revoke`, to the logger factory, to `Cleanup` or to `Delete`. -/
theorem workspace_not_found_short_circuits (s : WorkspaceService σ) (ctx : Context)
    (workspaceId : String) (world w1 : σ) (v : Option Workspace) (e : GoError)
    (hWs : s.workspaceStore.Find workspaceId world = ((v, some e), w1)) :
    (RemoveWorkspace s ctx workspaceId world).outcome
        = Outcome.returned (some ErrWorkspaceNotFound) ∧
    (ForceRemoveWorkspace s ctx workspaceId world).outcome
        = Outcome.returned (some ErrWorkspaceNotFound) ∧
    ∀ p ∈ [Call.isDestroyWorkspace, Call.isRevoke, Call.isCreateWorkspaceLogger,
        Call.isCleanup, Call.isDelete],
      calls p (RemoveWorkspace s ctx workspaceId world).trace = 0 ∧
      calls p (ForceRemoveWorkspace s ctx workspaceId world).trace = 0 := by
  rw [RemoveWorkspace_of_find_error s ctx workspaceId world w1 v e hWs,
    ForceRemoveWorkspace_of_find_error s ctx workspaceId world w1 v e hWs]
  refine ⟨handleRemoveError_outcome _ _ _ _ _ _, handleRemoveError_outcome _ _ _ _ _ _, ?_⟩
  intro p hp
  have h0 : calls p [Call.workspaceStoreFind workspaceId v (some e)] = 0 := by
    simp only [List.mem_cons, List.mem_singleton, List.not_mem_nil, or_false] at hp
    rcases hp with rfl | rfl | rfl | rfl | rfl <;> rfl
  exact ⟨calls_report_eq_zero _ _ _ _ _ _ p hp h0, calls_report_eq_zero _ _ _ _ _ _ p hp h0⟩

/-- Witness for C3: for the unknown id `w2` the store fails with its own error, both
flows return `ErrWorkspaceNotFound`, and the provisioner is not called. -/
theorem workspace_not_found_short_circuits_witness :
    (RemoveWorkspace (memService noFaults) ctxOn "w2" world1).outcome
        = Outcome.returned (some ErrWorkspaceNotFound) ∧
    (ForceRemoveWorkspace (memService noFaults) ctxOn "w2" world1).outcome
        = Outcome.returned (some ErrWorkspaceNotFound) ∧
    calls Call.isDestroyWorkspace
        (ForceRemoveWorkspace (memService noFaults) ctxOn "w2" world1).trace = 0 :=
  have h := workspace_not_found_short_circuits (memService noFaults) ctxOn "w2" world1 world1
    none errRecordNotFound rfl
  ⟨h.1, h.2.1, (h.2.2 Call.isDestroyWorkspace (by simp)).2⟩

/-- C4: when the workspace is found and `targetStore.Find` or
`targetConfigStore.Find` fails with error `e`, both `RemoveWorkspace` and
`ForceRemoveWorkspace` return exactly `e` and make no call to
`provisioner.DestroyWorkspace`, to `Revoke`, to the logger factory, to `Cleanup` or
to `workspaceStore.Delete`. -/
theorem lookup_error_short_circuits (s : WorkspaceService σ) (ctx : Context)
    (workspaceId : String) (world w1 : σ) (W : Workspace) (e : GoError)
    (hWs : s.workspaceStore.Find workspaceId world = ((some W, none), w1))
    (hFail :
      (∃ v w2, s.targetStore.Find W.TargetId w1 = ((v, some e), w2)) ∨
      (∃ target w2 v w3, s.targetStore.Find W.TargetId w1 = ((some target, none), w2) ∧
        s.targetConfigStore.Find ⟨some target.TargetConfig⟩ w2 = ((v, some e), w3))) :
    (RemoveWorkspace s ctx workspaceId world).outcome = Outcome.returned (some e) ∧
    (ForceRemoveWorkspace s ctx workspaceId world).outcome = Outcome.returned (some e) ∧
    ∀ p ∈ [Call.isDestroyWorkspace, Call.isRevoke, Call.isCreateWorkspaceLogger,
        Call.isCleanup, Call.isDelete],
      calls p (RemoveWorkspace s ctx workspaceId world).trace = 0 ∧
      calls p (ForceRemoveWorkspace s ctx workspaceId world).trace = 0 := by
  rcases hFail with ⟨v, w2, hTarget⟩ | ⟨target, w2, v, w3, hTarget, hConfig⟩
  · rw [RemoveWorkspace_of_target_error s ctx workspaceId world w1 w2 W v e hWs hTarget,
      ForceRemoveWorkspace_of_target_error s ctx workspaceId world w1 w2 W v e hWs hTarget]
    refine ⟨handleRemoveError_outcome _ _ _ _ _ _, handleRemoveError_outcome _ _ _ _ _ _, ?_⟩
    intro p hp
    have h0 : calls p [Call.workspaceStoreFind workspaceId (some W) none,
        Call.logInfof ("Destroying workspace " ++ W.Name),
        Call.targetStoreFind W.TargetId v (some e)] = 0 := by
      simp only [List.mem_cons, List.mem_singleton, List.not_mem_nil, or_false] at hp
      rcases hp with rfl | rfl | rfl | rfl | rfl <;> rfl
    exact ⟨calls_report_eq_zero _ _ _ _ _ _ p hp h0, calls_report_eq_zero _ _ _ _ _ _ p hp h0⟩
  · rw [RemoveWorkspace_of_config_error s ctx workspaceId world w1 w2 w3 W target v e hWs
        hTarget hConfig,
      ForceRemoveWorkspace_of_config_error s ctx workspaceId world w1 w2 w3 W target v e hWs
        hTarget hConfig]
    refine ⟨handleRemoveError_outcome _ _ _ _ _ _, handleRemoveError_outcome _ _ _ _ _ _, ?_⟩
    intro p hp
    have h0 : calls p [Call.workspaceStoreFind workspaceId (some W) none,
        Call.logInfof ("Destroying workspace " ++ W.Name),
        Call.targetStoreFind W.TargetId (some target) none,
        Call.targetConfigStoreFind ⟨some target.TargetConfig⟩ v (some e)] = 0 := by
      simp only [List.mem_cons, List.mem_singleton, List.not_mem_nil, or_false] at hp
      rcases hp with rfl | rfl | rfl | rfl | rfl <;> rfl
    exact ⟨calls_report_eq_zero _ _ _ _ _ _ p hp h0, calls_report_eq_zero _ _ _ _ _ _ p hp h0⟩

/-- Witness for C4: the target of `w1` names a config the store does not know; both
flows return the store's lookup error and neither calls the provisioner. -/
theorem lookup_error_short_circuits_witness :
    (RemoveWorkspace (memService noFaults) ctxOn "w1" worldUnknownConfig).outcome
        = Outcome.returned (some errRecordNotFound) ∧
    (ForceRemoveWorkspace (memService noFaults) ctxOn "w1" worldUnknownConfig).outcome
        = Outcome.returned (some errRecordNotFound) ∧
    calls Call.isDestroyWorkspace
        (ForceRemoveWorkspace (memService noFaults) ctxOn "w1" worldUnknownConfig).trace = 0 :=
  have h := lookup_error_short_circuits (memService noFaults) ctxOn "w1" worldUnknownConfig
    worldUnknownConfig workspaceW1 errRecordNotFound rfl
    (Or.inr ⟨targetT1, worldUnknownConfig, none, worldUnknownConfig, rfl, rfl⟩)
  ⟨h.1, h.2.1, (h.2.2 Call.isDestroyWorkspace (by simp)).2⟩

/-- C5: once the lookups have succeeded and the flow is past step 4 (always for
`ForceRemoveWorkspace`; for `RemoveWorkspace` when the provider destroy returned no
error), then whatever `Revoke` and `Cleanup` return, `workspaceStore.Delete` is
called exactly once, on the world that the provisioner, `Revoke`, the logger
factory and `Cleanup` have left, the flow returns exactly what that `Delete`
returned, and the world it leaves is the one `Delete` left, after the telemetry
report when telemetry is enabled. -/
theorem delete_result_is_returned (s : WorkspaceService σ) (ctx : Context)
    (workspaceId : String) (world w1 w2 w3 w4 w5 w6 w7 w8 : σ) (W : Workspace)
    (target : Target) (targetConfig : Option TargetConfig) (workspaceLogger : Logger σ)
    (perr rerr cerr derr : error)
    (hWs : s.workspaceStore.Find workspaceId world = ((some W, none), w1))
    (hTarget : s.targetStore.Find W.TargetId w1 = ((some target, none), w2))
    (hConfig : s.targetConfigStore.Find ⟨some target.TargetConfig⟩ w2
      = ((targetConfig, none), w3))
    (hDestroy : s.provisioner.DestroyWorkspace W targetConfig w3 = (perr, w4))
    (hRevoke : s.apiKeyService.Revoke ("ws-" ++ W.Id) w4 = (rerr, w5))
    (hLogger : s.loggerFactory.CreateWorkspaceLogger W.Id W.Name LogSource.LogSourceServer w5
      = (workspaceLogger, w6))
    (hCleanup : workspaceLogger.Cleanup w6 = (cerr, w7))
    (hDelete : s.workspaceStore.Delete W w7 = (derr, w8)) :
    ((ForceRemoveWorkspace s ctx workspaceId world).outcome = Outcome.returned derr ∧
      calls Call.isDelete (ForceRemoveWorkspace s ctx workspaceId world).trace = 1 ∧
      Call.workspaceStoreDelete W derr ∈ (ForceRemoveWorkspace s ctx workspaceId world).trace ∧
      Call.Revoke ("ws-" ++ W.Id) rerr ∈ (ForceRemoveWorkspace s ctx workspaceId world).trace ∧
      Call.Cleanup cerr ∈ (ForceRemoveWorkspace s ctx workspaceId world).trace ∧
      (ForceRemoveWorkspace s ctx workspaceId world).world
        = if s.telemetry.TelemetryEnabled ctx then
            (s.telemetryService.TrackServerEvent (reportEvent derr) (s.telemetry.ClientId ctx)
              (reportProps s ctx (some W) derr) w8).2
          else w8) ∧
    (perr = none →
      (RemoveWorkspace s ctx workspaceId world).outcome = Outcome.returned derr ∧
      calls Call.isDelete (RemoveWorkspace s ctx workspaceId world).trace = 1 ∧
      Call.workspaceStoreDelete W derr ∈ (RemoveWorkspace s ctx workspaceId world).trace ∧
      Call.Revoke ("ws-" ++ W.Id) rerr ∈ (RemoveWorkspace s ctx workspaceId world).trace ∧
      Call.Cleanup cerr ∈ (RemoveWorkspace s ctx workspaceId world).trace ∧
      (RemoveWorkspace s ctx workspaceId world).world
        = if s.telemetry.TelemetryEnabled ctx then
            (s.telemetryService.TrackServerEvent (reportEvent derr) (s.telemetry.ClientId ctx)
              (reportProps s ctx (some W) derr) w8).2
          else w8) := by
  have key : ∀ pe : error,
      (handleRemoveError s ctx (some W) derr w8
        (lookupCalls workspaceId W target targetConfig
          ++ teardownCalls W targetConfig pe rerr cerr derr)).outcome = Outcome.returned derr ∧
      calls Call.isDelete (handleRemoveError s ctx (some W) derr w8
        (lookupCalls workspaceId W target targetConfig
          ++ teardownCalls W targetConfig pe rerr cerr derr)).trace = 1 ∧
      Call.workspaceStoreDelete W derr ∈ (handleRemoveError s ctx (some W) derr w8
        (lookupCalls workspaceId W target targetConfig
          ++ teardownCalls W targetConfig pe rerr cerr derr)).trace ∧
      Call.Revoke ("ws-" ++ W.Id) rerr ∈ (handleRemoveError s ctx (some W) derr w8
        (lookupCalls workspaceId W target targetConfig
          ++ teardownCalls W targetConfig pe rerr cerr derr)).trace ∧
      Call.Cleanup cerr ∈ (handleRemoveError s ctx (some W) derr w8
        (lookupCalls workspaceId W target targetConfig
          ++ teardownCalls W targetConfig pe rerr cerr derr)).trace ∧
      (handleRemoveError s ctx (some W) derr w8
        (lookupCalls workspaceId W target targetConfig
          ++ teardownCalls W targetConfig pe rerr cerr derr)).world
        = if s.telemetry.TelemetryEnabled ctx then
            (s.telemetryService.TrackServerEvent (reportEvent derr) (s.telemetry.ClientId ctx)
              (reportProps s ctx (some W) derr) w8).2
          else w8 := by
    intro pe
    have hm := mem_teardownCalls W targetConfig pe rerr cerr derr
    refine ⟨handleRemoveError_outcome _ _ _ _ _ _, ?_, ?_, ?_, ?_,
      handleRemoveError_world_eq _ _ _ _ _ _⟩
    · rw [handleRemoveError_trace]
      have h0 := handleRemoveError_calls_other s ctx (some W) derr w8 Call.isDelete
        (fun _ _ _ _ => rfl) (fun _ => rfl)
      have h1 := calls_isDelete_teardown workspaceId W target targetConfig pe rerr cerr derr
      unfold calls at *
      rw [List.countP_append, h1, h0]
    · rw [handleRemoveError_trace]
      exact List.mem_append_left _ (List.mem_append_right _ hm.2.2.2)
    · rw [handleRemoveError_trace]
      exact List.mem_append_left _ (List.mem_append_right _ hm.2.1)
    · rw [handleRemoveError_trace]
      exact List.mem_append_left _ (List.mem_append_right _ hm.2.2.1)
  constructor
  · rw [ForceRemoveWorkspace_of_lookups s ctx workspaceId world w1 w2 w3 w4 w5 w6 w7 w8 W
      target targetConfig workspaceLogger perr rerr cerr derr hWs hTarget hConfig hDestroy
      hRevoke hLogger hCleanup hDelete]
    exact key perr
  · intro hp
    subst hp
    rw [RemoveWorkspace_of_destroyed s ctx workspaceId world w1 w2 w3 w4 w5 w6 w7 w8 W
      target targetConfig workspaceLogger rerr cerr derr hWs hTarget hConfig hDestroy
      hRevoke hLogger hCleanup hDelete]
    exact key none

/-- Witness for C5: `Revoke` and `Cleanup` both fail and the store is locked, so
`Delete` fails; both flows call `Delete` once, return its error and not the revoke
or cleanup error, and leave the world in which the provider has destroyed `w1`,
nothing is revoked or cleaned, `w1` is still stored and one event is tracked. -/
theorem delete_result_is_returned_witness :
    ((ForceRemoveWorkspace (memService auxiliaryDown) ctxOn "w1" lockedWorld1).outcome
        = Outcome.returned (some errStoreLocked) ∧
      calls Call.isDelete
        (ForceRemoveWorkspace (memService auxiliaryDown) ctxOn "w1" lockedWorld1).trace = 1 ∧
      (ForceRemoveWorkspace (memService auxiliaryDown) ctxOn "w1" lockedWorld1).world
        = { lockedWorld1 with destroyed := ["w1"], tracked := 1 }) ∧
    ((RemoveWorkspace (memService auxiliaryDown) ctxOn "w1" lockedWorld1).outcome
        = Outcome.returned (some errStoreLocked) ∧
      calls Call.isDelete
        (RemoveWorkspace (memService auxiliaryDown) ctxOn "w1" lockedWorld1).trace = 1 ∧
      (RemoveWorkspace (memService auxiliaryDown) ctxOn "w1" lockedWorld1).world
        = { lockedWorld1 with destroyed := ["w1"], tracked := 1 }) :=
  have h := delete_result_is_returned (memService auxiliaryDown) ctxOn "w1"
    lockedWorld1 lockedWorld1 lockedWorld1 lockedWorld1
    { lockedWorld1 with destroyed := ["w1"] }
    { lockedWorld1 with destroyed := ["w1"] }
    { lockedWorld1 with destroyed := ["w1"] }
    { lockedWorld1 with destroyed := ["w1"] }
    { lockedWorld1 with destroyed := ["w1"] }
    workspaceW1 targetT1 (some localConfig)
    ((memService auxiliaryDown).loggerFactory.CreateWorkspaceLogger "w1" "dev"
      LogSource.LogSourceServer { lockedWorld1 with destroyed := ["w1"] }).1
    none (some ⟨"revoke failed"⟩) (some ⟨"cleanup failed"⟩) (some errStoreLocked)
    rfl rfl rfl rfl rfl rfl rfl rfl
  ⟨⟨h.1.1, h.1.2.1, h.1.2.2.2.2.2.trans rfl⟩,
    ⟨(h.2 rfl).1, (h.2 rfl).2.1, (h.2 rfl).2.2.2.2.2.trans rfl⟩⟩

/-- C6: the returned error does not depend on telemetry.  `handleRemoveError` always
returns its `err` argument, and replacing the telemetry service, the telemetry
settings and the context by any others, with every other collaborator the same,
leaves the outcome of `RemoveWorkspace` and of `ForceRemoveWorkspace` the same. -/
theorem outcome_independent_of_telemetry (s : WorkspaceService σ)
    (telemetryService : TelemetryService σ) (telemetry : TelemetryPackage)
    (ctx ctx0 : Context) (workspaceId : String) (world : σ) :
    (∀ (w : Option Workspace) (err : error) (wd : σ) (trace : List Call),
      (handleRemoveError s ctx w err wd trace).outcome = Outcome.returned err) ∧
    (RemoveWorkspace { s with telemetryService := telemetryService, telemetry := telemetry }
        ctx0 workspaceId world).outcome
      = (RemoveWorkspace s ctx workspaceId world).outcome ∧
    (ForceRemoveWorkspace { s with telemetryService := telemetryService, telemetry := telemetry }
        ctx0 workspaceId world).outcome
      = (ForceRemoveWorkspace s ctx workspaceId world).outcome := by
  have h := outcome_eq_of_shared_collaborators s
    { s with telemetryService := telemetryService, telemetry := telemetry } ctx ctx0
    workspaceId world rfl rfl rfl rfl rfl rfl
  exact ⟨fun w err wd trace => handleRemoveError_outcome s ctx w err wd trace, h.1, h.2⟩

/-- Counterexample to C7: with telemetry disabled for the context, a successful
`RemoveWorkspace("w1")` and `ForceRemoveWorkspace("w1")` never call
`TrackServerEvent`, so the report is not attempted once. -/
theorem telemetry_skipped_when_disabled :
    calls Call.isTrackServerEvent
        (RemoveWorkspace (memService noFaults) ctxOff "w1" world1).trace = 0 ∧
    calls Call.isTrackServerEvent
        (ForceRemoveWorkspace (memService noFaults) ctxOff "w1" world1).trace = 0 ∧
    calls Call.isTrackServerEvent
        (RemoveWorkspace (memService noFaults) ctxOff "w1" world1).trace ≠ 1 := by
  decide

/-- C7, amended: every invocation of `RemoveWorkspace` or `ForceRemoveWorkspace` that
returns, whichever step failed or none, calls `TrackServerEvent` exactly once when
telemetry is enabled for the context and not at all when it is disabled. -/
theorem telemetry_attempted_once_if_enabled (s : WorkspaceService σ) (ctx : Context)
    (workspaceId : String) (world : σ) :
    ((RemoveWorkspace s ctx workspaceId world).outcome ≠ Outcome.nilDereference →
      calls Call.isTrackServerEvent (RemoveWorkspace s ctx workspaceId world).trace
        = if s.telemetry.TelemetryEnabled ctx then 1 else 0) ∧
    ((ForceRemoveWorkspace s ctx workspaceId world).outcome ≠ Outcome.nilDereference →
      calls Call.isTrackServerEvent (ForceRemoveWorkspace s ctx workspaceId world).trace
        = if s.telemetry.TelemetryEnabled ctx then 1 else 0) := by
  constructor
  · rcases collaborators_cases s workspaceId world with
      ⟨v, e, w1, h1⟩ | ⟨w1, h1⟩ | ⟨W, w1, h1, ⟨v, e, w2, h2⟩ | ⟨w2, h2⟩ |
        ⟨target, w2, h2, ⟨v, e, w3, h3⟩ |
          ⟨tc, w3, perr, w4, rerr, w5, lg, w6, cerr, w7, derr, w8, h3, h4, h5, h6, h7, h8⟩⟩⟩
    · rw [RemoveWorkspace_of_find_error s ctx workspaceId world w1 v e h1]
      exact fun _ => calls_track_report _ _ _ _ _ _ rfl
    · rw [RemoveWorkspace_of_find_nil s ctx workspaceId world w1 h1]
      exact fun h => absurd rfl h
    · rw [RemoveWorkspace_of_target_error s ctx workspaceId world w1 w2 W v e h1 h2]
      exact fun _ => calls_track_report _ _ _ _ _ _ rfl
    · rw [RemoveWorkspace_of_target_nil s ctx workspaceId world w1 w2 W h1 h2]
      exact fun h => absurd rfl h
    · rw [RemoveWorkspace_of_config_error s ctx workspaceId world w1 w2 w3 W target v e h1 h2 h3]
      exact fun _ => calls_track_report _ _ _ _ _ _ rfl
    · cases perr with
      | some e =>
        rw [RemoveWorkspace_of_destroy_error s ctx workspaceId world w1 w2 w3 w4 W target tc e
          h1 h2 h3 h4]
        exact fun _ => calls_track_report _ _ _ _ _ _ rfl
      | none =>
        rw [RemoveWorkspace_of_destroyed s ctx workspaceId world w1 w2 w3 w4 w5 w6 w7 w8 W
          target tc lg rerr cerr derr h1 h2 h3 h4 h5 h6 h7 h8]
        exact fun _ => calls_track_report _ _ _ _ _ _ (calls_track_teardown _ _ _ _ _ _ _ _)
  · rcases collaborators_cases s workspaceId world with
      ⟨v, e, w1, h1⟩ | ⟨w1, h1⟩ | ⟨W, w1, h1, ⟨v, e, w2, h2⟩ | ⟨w2, h2⟩ |
        ⟨target, w2, h2, ⟨v, e, w3, h3⟩ |
          ⟨tc, w3, perr, w4, rerr, w5, lg, w6, cerr, w7, derr, w8, h3, h4, h5, h6, h7, h8⟩⟩⟩
    · rw [ForceRemoveWorkspace_of_find_error s ctx workspaceId world w1 v e h1]
      exact fun _ => calls_track_report _ _ _ _ _ _ rfl
    · rw [ForceRemoveWorkspace_of_find_nil s ctx workspaceId world w1 h1]
      exact fun h => absurd rfl h
    · rw [ForceRemoveWorkspace_of_target_error s ctx workspaceId world w1 w2 W v e h1 h2]
      exact fun _ => calls_track_report _ _ _ _ _ _ rfl
    · rw [ForceRemoveWorkspace_of_target_nil s ctx workspaceId world w1 w2 W h1 h2]
      exact fun h => absurd rfl h
    · rw [ForceRemoveWorkspace_of_config_error s ctx workspaceId world w1 w2 w3 W target v e
        h1 h2 h3]
      exact fun _ => calls_track_report _ _ _ _ _ _ rfl
    · rw [ForceRemoveWorkspace_of_lookups s ctx workspaceId world w1 w2 w3 w4 w5 w6 w7 w8 W
        target tc lg perr rerr cerr derr h1 h2 h3 h4 h5 h6 h7 h8]
      exact fun _ => calls_track_report _ _ _ _ _ _ (calls_track_teardown _ _ _ _ _ _ _ _)

/-- Witness for C7, amended: with telemetry enabled and a failing telemetry service,
both flows return and each calls `TrackServerEvent` exactly once. -/
theorem telemetry_attempted_once_if_enabled_witness :
    calls Call.isTrackServerEvent
        (RemoveWorkspace (memService auxiliaryDown) ctxOn "w1" world1).trace = 1 ∧
    calls Call.isTrackServerEvent
        (ForceRemoveWorkspace (memService auxiliaryDown) ctxOn "w1" world1).trace = 1 :=
  have h := telemetry_attempted_once_if_enabled (memService auxiliaryDown) ctxOn "w1" world1
  ⟨h.1 (by decide), h.2 (by decide)⟩

/-- Counterexample to C8: the in-memory store is a table in which `Find` succeeds
exactly for present records and a successful `Delete` removes the record, `w1` is
present and its target and target config resolve; yet while the store is locked
the first `ForceRemoveWorkspace("w1")` returns the store's error, the record
stays, and the second call reaches the provisioner again. -/
theorem ForceRemoveWorkspace_first_call_may_fail :
    IsWorkspaceTable (memService noFaults) memRecords ∧
    memRecords lockedWorld1 "w1" = some workspaceW1 ∧
    (memService noFaults).targetStore.Find "t1" lockedWorld1
        = ((some targetT1, none), lockedWorld1) ∧
    (memService noFaults).targetConfigStore.Find ⟨some "local"⟩ lockedWorld1
        = ((some localConfig, none), lockedWorld1) ∧
    (ForceRemoveWorkspace (memService noFaults) ctxOff "w1" lockedWorld1).outcome
        = Outcome.returned (some errStoreLocked) ∧
    memRecords (ForceRemoveWorkspace (memService noFaults) ctxOff "w1" lockedWorld1).world "w1"
        = some workspaceW1 ∧
    (ForceRemoveWorkspace (memService noFaults) ctxOff "w1"
        (ForceRemoveWorkspace (memService noFaults) ctxOff "w1" lockedWorld1).world).outcome
        = Outcome.returned (some errStoreLocked) ∧
    calls Call.isDestroyWorkspace (ForceRemoveWorkspace (memService noFaults) ctxOff "w1"
        (ForceRemoveWorkspace (memService noFaults) ctxOff "w1" lockedWorld1).world).trace
        = 1 :=
  ⟨memService_isWorkspaceTable noFaults, rfl, rfl, rfl, rfl, rfl, rfl, rfl⟩

/-- C8, amended: over a store that behaves as a table of records which only `Delete`
changes, for a workspace id that is present and whose target and target config
resolve, if the store's `Delete` of the record succeeds then the first
`ForceRemoveWorkspace` call returns no error and the record is gone, and a second
call with the same id returns `ErrWorkspaceNotFound` and makes no provisioner call. -/
theorem ForceRemoveWorkspace_twice (s : WorkspaceService σ) (ctx ctx0 : Context)
    (workspaceId : String) (world w1 w2 w3 w4 w5 w6 w7 w8 : σ) (W : Workspace)
    (target : Target) (targetConfig : Option TargetConfig) (workspaceLogger : Logger σ)
    (perr rerr cerr : error) (records : σ → String → Option Workspace)
    (hv : OnlyDeleteChanges s records) (hTable : IsWorkspaceTable s records)
    (hWs : s.workspaceStore.Find workspaceId world = ((some W, none), w1))
    (hTarget : s.targetStore.Find W.TargetId w1 = ((some target, none), w2))
    (hConfig : s.targetConfigStore.Find ⟨some target.TargetConfig⟩ w2
      = ((targetConfig, none), w3))
    (hDestroy : s.provisioner.DestroyWorkspace W targetConfig w3 = (perr, w4))
    (hRevoke : s.apiKeyService.Revoke ("ws-" ++ W.Id) w4 = (rerr, w5))
    (hLogger : s.loggerFactory.CreateWorkspaceLogger W.Id W.Name LogSource.LogSourceServer w5
      = (workspaceLogger, w6))
    (hCleanup : workspaceLogger.Cleanup w6 = (cerr, w7))
    (hDelete : s.workspaceStore.Delete W w7 = (none, w8)) :
    (ForceRemoveWorkspace s ctx workspaceId world).outcome = Outcome.returned none ∧
    records (ForceRemoveWorkspace s ctx workspaceId world).world workspaceId = none ∧
    (ForceRemoveWorkspace s ctx0 workspaceId
        (ForceRemoveWorkspace s ctx workspaceId world).world).outcome
      = Outcome.returned (some ErrWorkspaceNotFound) ∧
    calls Call.isDestroyWorkspace (ForceRemoveWorkspace s ctx0 workspaceId
        (ForceRemoveWorkspace s ctx workspaceId world).world).trace = 0 := by
  have hgone := ForceRemoveWorkspace_removes_record s ctx workspaceId world w1 w2 w3 w4 w5 w6
    w7 w8 W target targetConfig workspaceLogger perr rerr cerr records hv hTable hWs hTarget
    hConfig hDestroy hRevoke hLogger hCleanup hDelete
  refine ⟨?_, hgone, ?_⟩
  · rw [ForceRemoveWorkspace_of_lookups s ctx workspaceId world w1 w2 w3 w4 w5 w6 w7 w8 W
      target targetConfig workspaceLogger perr rerr cerr none hWs hTarget hConfig hDestroy
      hRevoke hLogger hCleanup hDelete]
    exact handleRemoveError_outcome _ _ _ _ _ _
  · have habs := hTable.find_absent workspaceId _ hgone
    rcases hf : s.workspaceStore.Find workspaceId
      (ForceRemoveWorkspace s ctx workspaceId world).world with ⟨⟨v, err⟩, wn⟩
    rw [hf] at habs
    cases err with
    | none => exact absurd rfl habs
    | some e0 =>
      rw [ForceRemoveWorkspace_of_find_error s ctx0 workspaceId _ wn v e0 hf]
      exact ⟨handleRemoveError_outcome _ _ _ _ _ _,
        calls_report_eq_zero _ _ _ _ _ _ _ (by simp) rfl⟩

/-- Witness for C8, amended: with the store unlocked, the first
`ForceRemoveWorkspace("w1")` returns no error and removes `w1`; the second returns
`ErrWorkspaceNotFound` without calling the provisioner. -/
theorem ForceRemoveWorkspace_twice_witness :
    (ForceRemoveWorkspace (memService noFaults) ctxOn "w1" world1).outcome
        = Outcome.returned none ∧
    memRecords (ForceRemoveWorkspace (memService noFaults) ctxOn "w1" world1).world "w1"
        = none ∧
    (ForceRemoveWorkspace (memService noFaults) ctxOn "w1"
        (ForceRemoveWorkspace (memService noFaults) ctxOn "w1" world1).world).outcome
        = Outcome.returned (some ErrWorkspaceNotFound) ∧
    calls Call.isDestroyWorkspace (ForceRemoveWorkspace (memService noFaults) ctxOn "w1"
        (ForceRemoveWorkspace (memService noFaults) ctxOn "w1" world1).world).trace = 0 :=
  ForceRemoveWorkspace_twice (memService noFaults) ctxOn ctxOn "w1"
    world1 world1 world1 world1
    { world1 with destroyed := ["w1"] }
    { world1 with destroyed := ["w1"], revoked := ["ws-w1"] }
    { world1 with destroyed := ["w1"], revoked := ["ws-w1"] }
    { world1 with destroyed := ["w1"], revoked := ["ws-w1"], cleaned := ["w1"] }
    { world1 with destroyed := ["w1"], revoked := ["ws-w1"], cleaned := ["w1"],
                  workspaces := [] }
    workspaceW1 targetT1 (some localConfig)
    ((memService noFaults).loggerFactory.CreateWorkspaceLogger "w1" "dev"
      LogSource.LogSourceServer { world1 with destroyed := ["w1"], revoked := ["ws-w1"] }).1
    none none none memRecords (memService_onlyDeleteChanges noFaults)
    (memService_isWorkspaceTable noFaults) rfl rfl rfl rfl rfl rfl rfl rfl

/-- Counterexample to C9: with an unreachable provider `ForceRemoveWorkspace("w1")`
returns no error although its one call to `provisioner.DestroyWorkspace` returned
`ErrProviderUnreachable`. -/
theorem ForceRemoveWorkspace_no_error_after_failed_destroy :
    (ForceRemoveWorkspace (memService providerDown) ctxOff "w1" world1).outcome
        = Outcome.returned none ∧
    calls Call.isDestroyWorkspace
        (ForceRemoveWorkspace (memService providerDown) ctxOff "w1" world1).trace = 1 ∧
    Call.DestroyWorkspace workspaceW1 (some localConfig) (some ErrProviderUnreachable)
        ∈ (ForceRemoveWorkspace (memService providerDown) ctxOff "w1" world1).trace := by
  decide

/-- C9, amended: when `RemoveWorkspace` returns no error, the workspace was found,
`provisioner.DestroyWorkspace` was called for it and returned no error,
`workspaceStore.Delete` was called for it and returned no error, and the world left
is the one that `Delete` left (after the telemetry report when enabled), so on a
store that behaves as a table of records which only `Delete` changes the record is
gone.  When `ForceRemoveWorkspace` returns no error the same holds, except that
`provisioner.DestroyWorkspace` was called for the workspace whatever it returned. -/
theorem no_error_return_means (s : WorkspaceService σ) (ctx : Context)
    (workspaceId : String) (world : σ) :
    ((RemoveWorkspace s ctx workspaceId world).outcome = Outcome.returned none →
      ∃ (W : Workspace) (targetConfig : Option TargetConfig) (w7 w8 : σ),
        Call.workspaceStoreFind workspaceId (some W) none
          ∈ (RemoveWorkspace s ctx workspaceId world).trace ∧
        Call.DestroyWorkspace W targetConfig none
          ∈ (RemoveWorkspace s ctx workspaceId world).trace ∧
        Call.workspaceStoreDelete W none
          ∈ (RemoveWorkspace s ctx workspaceId world).trace ∧
        s.workspaceStore.Delete W w7 = (none, w8) ∧
        (RemoveWorkspace s ctx workspaceId world).world
          = (if s.telemetry.TelemetryEnabled ctx then
              (s.telemetryService.TrackServerEvent (reportEvent none)
                (s.telemetry.ClientId ctx) (reportProps s ctx (some W) none) w8).2
            else w8) ∧
        ∀ records : σ → String → Option Workspace,
          OnlyDeleteChanges s records → IsWorkspaceTable s records →
          records (RemoveWorkspace s ctx workspaceId world).world workspaceId = none) ∧
    ((ForceRemoveWorkspace s ctx workspaceId world).outcome = Outcome.returned none →
      ∃ (W : Workspace) (targetConfig : Option TargetConfig) (perr : error) (w7 w8 : σ),
        Call.workspaceStoreFind workspaceId (some W) none
          ∈ (ForceRemoveWorkspace s ctx workspaceId world).trace ∧
        Call.DestroyWorkspace W targetConfig perr
          ∈ (ForceRemoveWorkspace s ctx workspaceId world).trace ∧
        Call.workspaceStoreDelete W none
          ∈ (ForceRemoveWorkspace s ctx workspaceId world).trace ∧
        s.workspaceStore.Delete W w7 = (none, w8) ∧
        (ForceRemoveWorkspace s ctx workspaceId world).world
          = (if s.telemetry.TelemetryEnabled ctx then
              (s.telemetryService.TrackServerEvent (reportEvent none)
                (s.telemetry.ClientId ctx) (reportProps s ctx (some W) none) w8).2
            else w8) ∧
        ∀ records : σ → String → Option Workspace,
          OnlyDeleteChanges s records → IsWorkspaceTable s records →
          records (ForceRemoveWorkspace s ctx workspaceId world).world workspaceId = none) := by
  have cs := collaborators_cases s workspaceId world
  constructor
  · rcases cs with
      ⟨v, e, w1, h1⟩ | ⟨w1, h1⟩ | ⟨W, w1, h1, ⟨v, e, w2, h2⟩ | ⟨w2, h2⟩ |
        ⟨target, w2, h2, ⟨v, e, w3, h3⟩ |
          ⟨tc, w3, perr, w4, rerr, w5, lg, w6, cerr, w7, derr, w8, h3, h4, h5, h6, h7, h8⟩⟩⟩
    · intro h
      rw [RemoveWorkspace_of_find_error s ctx workspaceId world w1 v e h1,
        handleRemoveError_outcome] at h
      cases h
    · intro h
      rw [RemoveWorkspace_of_find_nil s ctx workspaceId world w1 h1] at h
      cases h
    · intro h
      rw [RemoveWorkspace_of_target_error s ctx workspaceId world w1 w2 W v e h1 h2,
        handleRemoveError_outcome] at h
      cases h
    · intro h
      rw [RemoveWorkspace_of_target_nil s ctx workspaceId world w1 w2 W h1 h2] at h
      cases h
    · intro h
      rw [RemoveWorkspace_of_config_error s ctx workspaceId world w1 w2 w3 W target v e h1 h2
        h3, handleRemoveError_outcome] at h
      cases h
    · cases perr with
      | some e =>
        intro h
        rw [RemoveWorkspace_of_destroy_error s ctx workspaceId world w1 w2 w3 w4 W target tc e
          h1 h2 h3 h4, handleRemoveError_outcome] at h
        cases h
      | none =>
        intro h
        have hp := RemoveWorkspace_of_destroyed s ctx workspaceId world w1 w2 w3 w4 w5 w6 w7
          w8 W target tc lg rerr cerr derr h1 h2 h3 h4 h5 h6 h7 h8
        have hd : derr = none := by
          rw [hp, handleRemoveError_outcome] at h
          cases h
          rfl
        subst hd
        have hm := mem_teardownCalls W tc none rerr cerr none
        refine ⟨W, tc, w7, w8, ?_, ?_, ?_, h8, ?_, ?_⟩
        · rw [hp, handleRemoveError_trace]
          exact List.mem_append_left _ (List.mem_append_left _ (mem_lookupCalls _ _ _ _))
        · rw [hp, handleRemoveError_trace]
          exact List.mem_append_left _ (List.mem_append_right _ hm.1)
        · rw [hp, handleRemoveError_trace]
          exact List.mem_append_left _ (List.mem_append_right _ hm.2.2.2)
        · rw [hp]
          exact handleRemoveError_world_eq _ _ _ _ _ _
        · intro records hv hTable
          exact RemoveWorkspace_removes_record s ctx workspaceId world w1 w2 w3 w4 w5 w6 w7 w8
            W target tc lg rerr cerr records hv hTable h1 h2 h3 h4 h5 h6 h7 h8
  · rcases cs with
      ⟨v, e, w1, h1⟩ | ⟨w1, h1⟩ | ⟨W, w1, h1, ⟨v, e, w2, h2⟩ | ⟨w2, h2⟩ |
        ⟨target, w2, h2, ⟨v, e, w3, h3⟩ |
          ⟨tc, w3, perr, w4, rerr, w5, lg, w6, cerr, w7, derr, w8, h3, h4, h5, h6, h7, h8⟩⟩⟩
    · intro h
      rw [ForceRemoveWorkspace_of_find_error s ctx workspaceId world w1 v e h1,
        handleRemoveError_outcome] at h
      cases h
    · intro h
      rw [ForceRemoveWorkspace_of_find_nil s ctx workspaceId world w1 h1] at h
      cases h
    · intro h
      rw [ForceRemoveWorkspace_of_target_error s ctx workspaceId world w1 w2 W v e h1 h2,
        handleRemoveError_outcome] at h
      cases h
    · intro h
      rw [ForceRemoveWorkspace_of_target_nil s ctx workspaceId world w1 w2 W h1 h2] at h
      cases h
    · intro h
      rw [ForceRemoveWorkspace_of_config_error s ctx workspaceId world w1 w2 w3 W target v e
        h1 h2 h3, handleRemoveError_outcome] at h
      cases h
    · intro h
      have hp := ForceRemoveWorkspace_of_lookups s ctx workspaceId world w1 w2 w3 w4 w5 w6 w7
        w8 W target tc lg perr rerr cerr derr h1 h2 h3 h4 h5 h6 h7 h8
      have hd : derr = none := by
        rw [hp, handleRemoveError_outcome] at h
        cases h
        rfl
      subst hd
      have hm := mem_teardownCalls W tc perr rerr cerr none
      refine ⟨W, tc, perr, w7, w8, ?_, ?_, ?_, h8, ?_, ?_⟩
      · rw [hp, handleRemoveError_trace]
        exact List.mem_append_left _ (List.mem_append_left _ (mem_lookupCalls _ _ _ _))
      · rw [hp, handleRemoveError_trace]
        exact List.mem_append_left _ (List.mem_append_right _ hm.1)
      · rw [hp, handleRemoveError_trace]
        exact List.mem_append_left _ (List.mem_append_right _ hm.2.2.2)
      · rw [hp]
        exact handleRemoveError_world_eq _ _ _ _ _ _
      · intro records hv hTable
        exact ForceRemoveWorkspace_removes_record s ctx workspaceId world w1 w2 w3 w4 w5 w6 w7
          w8 W target tc lg perr rerr cerr records hv hTable h1 h2 h3 h4 h5 h6 h7 h8

/-- Witness for C9, amended: the successful `RemoveWorkspace("w1")` returns no error,
its call log holds a `DestroyWorkspace` and a `Delete` that returned no error, and
`w1` is gone from the store; with an unreachable provider
`ForceRemoveWorkspace("w1")` returns no error, its call log holds a
`DestroyWorkspace` and a `Delete` that returned no error, and `w1` is gone too. -/
theorem no_error_return_means_witness :
    (memRecords (RemoveWorkspace (memService noFaults) ctxOn "w1" world1).world "w1" = none ∧
      ∃ W targetConfig,
        Call.DestroyWorkspace W targetConfig none
          ∈ (RemoveWorkspace (memService noFaults) ctxOn "w1" world1).trace ∧
        Call.workspaceStoreDelete W none
          ∈ (RemoveWorkspace (memService noFaults) ctxOn "w1" world1).trace) ∧
    (memRecords (ForceRemoveWorkspace (memService providerDown) ctxOn "w1" world1).world "w1"
        = none ∧
      ∃ W targetConfig perr,
        Call.DestroyWorkspace W targetConfig perr
          ∈ (ForceRemoveWorkspace (memService providerDown) ctxOn "w1" world1).trace ∧
        Call.workspaceStoreDelete W none
          ∈ (ForceRemoveWorkspace (memService providerDown) ctxOn "w1" world1).trace) := by
  obtain ⟨W, tc, _, _, _, hd, hdel, _, _, hrec⟩ :=
    (no_error_return_means (memService noFaults) ctxOn "w1" world1).1 rfl
  obtain ⟨W0, tc0, perr, _, _, _, hd0, hdel0, _, _, hrec0⟩ :=
    (no_error_return_means (memService providerDown) ctxOn "w1" world1).2 rfl
  exact ⟨⟨hrec memRecords (memService_onlyDeleteChanges noFaults)
        (memService_isWorkspaceTable noFaults), W, tc, hd, hdel⟩,
    ⟨hrec0 memRecords (memService_onlyDeleteChanges providerDown)
        (memService_isWorkspaceTable providerDown), W0, tc0, perr, hd0, hdel0⟩⟩

/-- C10: the two flows differ only in the provider-failure policy.  Whenever
`provisioner.DestroyWorkspace` is not reached or returns no error,
`ForceRemoveWorkspace` and `RemoveWorkspace` return the same error, leave the same
world and make the same calls with the same arguments and results; for a run that
passes all lookups the collaborator calls are, in order, `Find`, `Find`, `Find`,
`DestroyWorkspace`, `Revoke("ws-" + id)`, `CreateWorkspaceLogger(id, name, server)`,
`Cleanup`, `Delete`, and the telemetry report when telemetry is enabled. -/
theorem ForceRemoveWorkspace_eq_RemoveWorkspace (s : WorkspaceService σ) (ctx : Context)
    (workspaceId : String) (world : σ)
    (hNoFailedDestroy :
      calls Call.isFailedDestroy (RemoveWorkspace s ctx workspaceId world).trace = 0) :
    ForceRemoveWorkspace s ctx workspaceId world = RemoveWorkspace s ctx workspaceId world ∧
    ∀ (w1 w2 w3 w4 w5 w6 w7 w8 : σ) (W : Workspace) (target : Target)
      (targetConfig : Option TargetConfig) (workspaceLogger : Logger σ)
      (rerr cerr derr : error),
      s.workspaceStore.Find workspaceId world = ((some W, none), w1) →
      s.targetStore.Find W.TargetId w1 = ((some target, none), w2) →
      s.targetConfigStore.Find ⟨some target.TargetConfig⟩ w2 = ((targetConfig, none), w3) →
      s.provisioner.DestroyWorkspace W targetConfig w3 = (none, w4) →
      s.apiKeyService.Revoke ("ws-" ++ W.Id) w4 = (rerr, w5) →
      s.loggerFactory.CreateWorkspaceLogger W.Id W.Name LogSource.LogSourceServer w5
        = (workspaceLogger, w6) →
      workspaceLogger.Cleanup w6 = (cerr, w7) →
      s.workspaceStore.Delete W w7 = (derr, w8) →
      collaboratorCalls (RemoveWorkspace s ctx workspaceId world).trace
        = [Call.workspaceStoreFind workspaceId (some W) none,
           Call.targetStoreFind W.TargetId (some target) none,
           Call.targetConfigStoreFind ⟨some target.TargetConfig⟩ targetConfig none,
           Call.DestroyWorkspace W targetConfig none,
           Call.Revoke ("ws-" ++ W.Id) rerr,
           Call.CreateWorkspaceLogger W.Id W.Name LogSource.LogSourceServer,
           Call.Cleanup cerr,
           Call.workspaceStoreDelete W derr]
          ++ (if s.telemetry.TelemetryEnabled ctx then
                [Call.TrackServerEvent (reportEvent derr) (s.telemetry.ClientId ctx)
                  (reportProps s ctx (some W) derr)
                  (s.telemetryService.TrackServerEvent (reportEvent derr)
                    (s.telemetry.ClientId ctx) (reportProps s ctx (some W) derr) w8).1]
              else []) := by
  constructor
  · rcases collaborators_cases s workspaceId world with
      ⟨v, e, w1, h1⟩ | ⟨w1, h1⟩ | ⟨W, w1, h1, ⟨v, e, w2, h2⟩ | ⟨w2, h2⟩ |
        ⟨target, w2, h2, ⟨v, e, w3, h3⟩ |
          ⟨tc, w3, perr, w4, rerr, w5, lg, w6, cerr, w7, derr, w8, h3, h4, h5, h6, h7, h8⟩⟩⟩
    · rw [RemoveWorkspace_of_find_error s ctx workspaceId world w1 v e h1,
        ForceRemoveWorkspace_of_find_error s ctx workspaceId world w1 v e h1]
    · rw [RemoveWorkspace_of_find_nil s ctx workspaceId world w1 h1,
        ForceRemoveWorkspace_of_find_nil s ctx workspaceId world w1 h1]
    · rw [RemoveWorkspace_of_target_error s ctx workspaceId world w1 w2 W v e h1 h2,
        ForceRemoveWorkspace_of_target_error s ctx workspaceId world w1 w2 W v e h1 h2]
    · rw [RemoveWorkspace_of_target_nil s ctx workspaceId world w1 w2 W h1 h2,
        ForceRemoveWorkspace_of_target_nil s ctx workspaceId world w1 w2 W h1 h2]
    · rw [RemoveWorkspace_of_config_error s ctx workspaceId world w1 w2 w3 W target v e h1 h2
          h3,
        ForceRemoveWorkspace_of_config_error s ctx workspaceId world w1 w2 w3 W target v e h1
          h2 h3]
    · cases perr with
      | some e =>
        exfalso
        rw [RemoveWorkspace_of_destroy_error s ctx workspaceId world w1 w2 w3 w4 W target tc e
          h1 h2 h3 h4, handleRemoveError_trace] at hNoFailedDestroy
        simp [calls, lookupCalls, Call.isFailedDestroy] at hNoFailedDestroy
      | none =>
        rw [RemoveWorkspace_of_destroyed s ctx workspaceId world w1 w2 w3 w4 w5 w6 w7 w8 W
            target tc lg rerr cerr derr h1 h2 h3 h4 h5 h6 h7 h8,
          ForceRemoveWorkspace_of_lookups s ctx workspaceId world w1 w2 w3 w4 w5 w6 w7 w8 W
            target tc lg none rerr cerr derr h1 h2 h3 h4 h5 h6 h7 h8]
  · intro w1 w2 w3 w4 w5 w6 w7 w8 W target targetConfig workspaceLogger rerr cerr derr
      h1 h2 h3 h4 h5 h6 h7 h8
    rw [RemoveWorkspace_of_destroyed s ctx workspaceId world w1 w2 w3 w4 w5 w6 w7 w8 W
      target targetConfig workspaceLogger rerr cerr derr h1 h2 h3 h4 h5 h6 h7 h8,
      handleRemoveError_trace, collaboratorCalls_append, collaboratorCalls_teardown,
      collaboratorCalls_report]

/-- Witness for C10: with every collaborator succeeding, the two flows on `w1` are
the same run, and its collaborator calls are the nine of the shared algorithm. -/
theorem ForceRemoveWorkspace_eq_RemoveWorkspace_witness :
    ForceRemoveWorkspace (memService noFaults) ctxOn "w1" world1
      = RemoveWorkspace (memService noFaults) ctxOn "w1" world1 ∧
    collaboratorCalls (RemoveWorkspace (memService noFaults) ctxOn "w1" world1).trace
      = [Call.workspaceStoreFind "w1" (some workspaceW1) none,
         Call.targetStoreFind "t1" (some targetT1) none,
         Call.targetConfigStoreFind ⟨some "local"⟩ (some localConfig) none,
         Call.DestroyWorkspace workspaceW1 (some localConfig) none,
         Call.Revoke "ws-w1" none,
         Call.CreateWorkspaceLogger "w1" "dev" LogSource.LogSourceServer,
         Call.Cleanup none,
         Call.workspaceStoreDelete workspaceW1 none,
         Call.TrackServerEvent ServerEvent.ServerEventWorkspaceDestroyed "c1"
           [("workspace_id", "w1")] none] :=
  have h := ForceRemoveWorkspace_eq_RemoveWorkspace (memService noFaults) ctxOn "w1" world1
    (by decide)
  ⟨h.1,
    h.2 world1 world1 world1
      { world1 with destroyed := ["w1"] }
      { world1 with destroyed := ["w1"], revoked := ["ws-w1"] }
      { world1 with destroyed := ["w1"], revoked := ["ws-w1"] }
      { world1 with destroyed := ["w1"], revoked := ["ws-w1"], cleaned := ["w1"] }
      { world1 with destroyed := ["w1"], revoked := ["ws-w1"], cleaned := ["w1"],
                    workspaces := [] }
      workspaceW1 targetT1 (some localConfig)
      ((memService noFaults).loggerFactory.CreateWorkspaceLogger "w1" "dev"
        LogSource.LogSourceServer { world1 with destroyed := ["w1"], revoked := ["ws-w1"] }).1
      none none none rfl rfl rfl rfl rfl rfl rfl rfl⟩

end Contract

end Daytona
